import Mathlib

/-
  Verification development for the Active SAN Defense Framework simulator.

  The Python sources are embedded shallowly:
  * `simulation_backend.py` — `ANSCompressor`, `ReliabilityMath.simulate_traffic_flow`
    (the N+1 special branch) and `ReliabilityMath.simulate_generic_flow`;
  * `san_components/failing_switch.py` — `FailingSwitch` (AFTM monitor, `fail_switch`, `put`);
  * `san_components/routing_controller.py` — `RoutingController` (edge reweighting and
    `update_all_fibs`).

  Python floats are modelled as exact rationals (`ℚ`); `random.uniform(a, b)` and
  `math.exp` are modelled by explicit parameters (a unit draw `u`, an abstract
  exponential-like function `mexp`), so every run is a deterministic function of the
  injected randomness, as the spec requires.
-/

set_option allowUnsafeReducibility true in
attribute [semireducible] Rat.mul Rat.add Rat.inv Rat.sub Rat.neg Rat.div

namespace SANDefense

/-- Characters of the first list are an initial segment of the second. -/
def chStarts : List Char → List Char → Bool
  | [], _ => true
  | _ :: _, [] => false
  | a :: as, b :: bs => a == b && chStarts as bs

/-- The first list occurs contiguously inside the second. -/
def chHasSub (needle : List Char) : List Char → Bool
  | [] => chStarts needle []
  | b :: bs => chStarts needle (b :: bs) || chHasSub needle bs

/-- Python's substring test `needle in hay` on strings. -/
def pyIn (needle hay : String) : Bool :=
  chHasSub needle.toList hay.toList

/-- Node identifiers are the Python node-name strings. -/
abbrev NodeId := String

/-- Pointwise update of a rational-valued node map (a Python dict assignment). -/
def upd (f : NodeId → ℚ) (k : NodeId) (v : ℚ) : NodeId → ℚ :=
  fun n => if n = k then v else f n

/-- Pointwise update of a string-valued node map. -/
def updS (f : NodeId → String) (k : NodeId) (v : String) : NodeId → String :=
  fun n => if n = k then v else f n

/-- Pointwise update of the edge-flow map. -/
def updE (f : NodeId × NodeId → ℚ) (k : NodeId × NodeId) (v : ℚ) : NodeId × NodeId → ℚ :=
  fun e => if e = k then v else f e

/-- Structured content of the event-log strings built in `simulation_backend.py`. -/
inductive LogEntry where
  /-- "ANS Active: Input {raw}MB → {sent}MB" -/
  | ansActive (input sent : ℚ)
  /-- "Reroute: {sw} -> Standby ({excess}MB)" -/
  | rerouteWarn (sw : NodeId) (excess : ℚ)
  /-- "FAILURE: {sw} crashed." -/
  | failureCrit (sw : NodeId)
  /-- "{node}: Traffic capped at {threshold}MB (Rerouting Active)" -/
  | cappedWarn (node : NodeId) (threshold : ℚ)
  /-- "{node} CRASHED due to overload!" -/
  | crashedCrit (node : NodeId)
  /-- "No Server nodes found." -/
  | noServerErr
  deriving DecidableEq

/-- `random.uniform lo hi` with the underlying unit draw `u` made explicit. -/
def uniform (lo hi u : ℚ) : ℚ := lo + (hi - lo) * u

/-- `ANSCompressor` from `simulation_backend.py` (defaults `min_ratio=1.2`, `max_ratio=2.8`). -/
structure ANSCompressor where
  min_ratio : ℚ := 12 / 10
  max_ratio : ℚ := 28 / 10

/-- `ANSCompressor.compress`: sample a ratio uniformly and divide the data size by it.
The single unit draw `u` models the one call to `random.uniform`. -/
def ANSCompressor.compress (c : ANSCompressor) (u : ℚ) (data_size_mb : ℚ) : ℚ × ℚ :=
  let ratio := uniform c.min_ratio c.max_ratio u
  (data_size_mb / ratio, ratio)

/-- Snapshot state of the N+1 branch of `simulate_traffic_flow`: per-node load and
status string, per-edge flow, and the event log.  (The color and capacity fields of
the Python dict are presentation-only and are not modelled.) -/
structure NPState where
  load : NodeId → ℚ
  state : NodeId → String
  flows : NodeId × NodeId → ℚ
  logs : List LogEntry

/-- `"ANS" in scenario_type or "Full" in scenario_type` — compression is active. -/
def scenarioCompression (scenario : String) : Bool :=
  pyIn "ANS" scenario || pyIn "Full" scenario

/-- `"Rerouting" in scenario_type or "Full" in scenario_type` — rerouting is active. -/
def scenarioRerouting (scenario : String) : Bool :=
  pyIn "Rerouting" scenario || pyIn "Full" scenario

/-- Body of the `for sw in ['SwA1', 'SwB1']` loop of the N+1 branch
(`simulation_backend.py` lines 145–170): decide the switch's fate from its load,
forward `flow_main` to its second-layer target, and push any `flow_standby`
onto `Sw-Standby`. -/
def firstLayerStep (threshold : ℚ) (reroute : Bool) (sw target : NodeId)
    (s : NPState) : NPState :=
  let load := s.load sw
  let res : ℚ × ℚ × NPState :=
    if load > threshold then
      if reroute then
        let flow_main := threshold * (95 / 100)
        let flow_standby := load - flow_main
        (flow_main, flow_standby,
          { s with state := updS s.state sw "Rerouted",
                   logs := s.logs ++ [LogEntry.rerouteWarn sw flow_standby] })
      else
        (0, 0,
          { s with state := updS s.state sw "Failure",
                   logs := s.logs ++ [LogEntry.failureCrit sw] })
    else
      (load, 0, { s with state := updS s.state sw "Safe" })
  let flow_main := res.1
  let flow_standby := res.2.1
  let s1 := res.2.2
  let s2 := { s1 with
              flows := updE s1.flows (sw, target) flow_main,
              load := upd s1.load target (s1.load target + flow_main) }
  if flow_standby > 0 then
    { s2 with
      flows := updE s2.flows (sw, "Sw-Standby") flow_standby,
      load := upd s2.load "Sw-Standby" (s2.load "Sw-Standby" + flow_standby),
      state := updS s2.state "Sw-Standby" "Active" }
  else s2

/-- Body of the `for sw in ['SwA2', 'SwB2']` loop of the N+1 branch
(`simulation_backend.py` lines 177–188). -/
def secondLayerStep (threshold : ℚ) (sw : NodeId) (s : NPState) : NPState :=
  let load := s.load sw
  if load > 0 then
    if load > threshold then
      { s with state := updS s.state sw "Overload",
               flows := updE s.flows (sw, "Storage-1") 0 }
    else
      { s with state := updS s.state sw "Safe",
               flows := updE s.flows (sw, "Storage-1") load,
               load := upd s.load "Storage-1" (s.load "Storage-1" + load) }
  else s

/-- The N+1 special branch of `ReliabilityMath.simulate_traffic_flow`
(`simulation_backend.py` lines 120–191).  Returns the final snapshot and the
compression ratio.  `u` is the unit draw behind `random.uniform`. -/
def simulate_nplus1 (raw_traffic : ℚ) (scenario : String) (threshold : ℚ)
    (u : ℚ) : NPState × ℚ :=
  let init : NPState :=
    { load := fun _ => 0, state := fun _ => "Idle", flows := fun _ => 0, logs := [] }
  let comp : ℚ × ℚ × NPState :=
    if scenarioCompression scenario then
      let c := ANSCompressor.compress {} u raw_traffic
      (c.1, c.2, { init with logs := init.logs ++ [LogEntry.ansActive raw_traffic c.1] })
    else
      (raw_traffic, 1, init)
  let traffic_to_send := comp.1
  let comp_ratio := comp.2.1
  let s0 := comp.2.2
  let s1 := { s0 with load := upd s0.load "Server-1" traffic_to_send,
                      state := updS s0.state "Server-1" "OK" }
  let load_A := traffic_to_send * (6 / 10)
  let load_B := traffic_to_send * (4 / 10)
  let s2 := { s1 with
              flows := updE (updE s1.flows ("Server-1", "SwA1") load_A)
                         ("Server-1", "SwB1") load_B,
              load := upd (upd s1.load "SwA1" load_A) "SwB1" load_B }
  let reroute := scenarioRerouting scenario
  let s3 := firstLayerStep threshold reroute "SwA1" "SwA2" s2
  let s4 := firstLayerStep threshold reroute "SwB1" "SwB2" s3
  let s_load := s4.load "Sw-Standby"
  let s5 :=
    if s_load > 0 then
      { s4 with
        flows := updE s4.flows ("Sw-Standby", "Storage-1") s_load,
        load := upd s4.load "Storage-1" (s4.load "Storage-1" + s_load) }
    else s4
  let s6 := secondLayerStep threshold "SwA2" s5
  let s7 := secondLayerStep threshold "SwB2" s6
  let s8 := { s7 with state := updS s7.state "Storage-1" "Online" }
  (s8, comp_ratio)

/-- Nodes of the predefined "N+1 Redundancy" topology. -/
def nplusNodes : List NodeId :=
  ["Server-1", "SwA1", "SwB1", "Sw-Standby", "SwA2", "SwB2", "Storage-1"]

/-- Edges of the predefined "N+1 Redundancy" topology, in insertion order. -/
def nplusEdges : List (NodeId × NodeId) :=
  [("Server-1", "SwA1"), ("Server-1", "SwB1"),
   ("SwA1", "SwA2"), ("SwB1", "SwB2"),
   ("SwA2", "Storage-1"), ("SwB2", "Storage-1"),
   ("SwA1", "Sw-Standby"), ("SwB1", "Sw-Standby"),
   ("Sw-Standby", "Storage-1")]

/-- Successors of `c` in a digraph given by an edge list, in edge-insertion order
(the iteration order of `G.successors(current)` for a `networkx.DiGraph`). -/
def successors (edges : List (NodeId × NodeId)) (c : NodeId) : List NodeId :=
  (edges.filter (fun e => e.1 == c)).map (fun e => e.2)

/-- Running state of `simulate_generic_flow`'s frontier loop: the snapshot fields,
the work queue, the `steps` counter checked against `max_steps`, and a ghost
counter `iters` of how many loop iterations (queue pops) have executed. -/
structure GenState where
  load : NodeId → ℚ
  state : NodeId → String
  flows : NodeId × NodeId → ℚ
  logs : List LogEntry
  queue : List NodeId
  steps : ℕ
  iters : ℕ

/-- One neighbor update inside the forwarding loop of `simulate_generic_flow`
(lines 251–255): record the flow, accumulate the load, and enqueue the neighbor
unless it is already queued. -/
def forwardTo (current : NodeId) (out_per_link : ℚ) (s : GenState) (nbr : NodeId) :
    GenState :=
  { s with
    flows := updE s.flows (current, nbr) out_per_link,
    load := upd s.load nbr (s.load nbr + out_per_link),
    queue := if s.queue.contains nbr then s.queue else s.queue ++ [nbr] }

/-- The capping/crash logic of `simulate_generic_flow` applies to nodes whose name
contains neither "Server" nor "Storage" — the switch-role nodes. -/
def switchRole (n : NodeId) : Bool :=
  !(pyIn "Server" n) && !(pyIn "Storage" n)

/-- One iteration of the frontier loop of `simulate_generic_flow`
(lines 224–257), for the popped node `current` with remaining queue `rest`.
Matches the source exactly: non-Server/Storage nodes are capped or crash at the
threshold; a node with no successors `continue`s without incrementing `steps`;
forwarding splits `pass_load` equally across successors. -/
def genericBody (edges : List (NodeId × NodeId)) (threshold : ℚ) (reroute : Bool)
    (current : NodeId) (rest : List NodeId) (s : GenState) : GenState :=
  let s := { s with queue := rest, iters := s.iters + 1 }
  let load_in := s.load current
  let ps : ℚ × GenState :=
    if switchRole current then
      if load_in > threshold then
        if reroute then
          (threshold,
            { s with state := updS s.state current "Capped/Rerouted",
                     logs := s.logs ++ [LogEntry.cappedWarn current threshold] })
        else
          (0,
            { s with state := updS s.state current "Crashed",
                     logs := s.logs ++ [LogEntry.crashedCrit current] })
      else
        (load_in, { s with state := updS s.state current "Safe" })
    else
      (load_in,
        if pyIn "Storage" current then
          { s with state := updS s.state current "Sink" }
        else s)
  let pass_load := ps.1
  let s := ps.2
  let nbrs := successors edges current
  if nbrs.isEmpty then s
  else
    let s :=
      if pass_load > 0 then
        nbrs.foldl (forwardTo current (pass_load / (nbrs.length : ℚ))) s
      else s
    { s with steps := s.steps + 1 }

/-- The `while queue and steps < max_steps` loop of `simulate_generic_flow`,
run with explicit fuel; `none` means the fuel ran out before the loop's own
exit condition was reached (shown impossible for `genericFuel` below). -/
def genericLoop (edges : List (NodeId × NodeId)) (threshold : ℚ) (reroute : Bool)
    (max_steps : ℕ) : ℕ → GenState → Option GenState
  | 0, _ => none
  | fuel + 1, s =>
    match s.queue with
    | [] => some s
    | current :: rest =>
      if max_steps ≤ s.steps then some s
      else genericLoop edges threshold reroute max_steps fuel
        (genericBody edges threshold reroute current rest s)

/-- Fuel that always suffices for `genericLoop` (proved in `genericLoop_isSome_of_fuel`):
every iteration either increments `steps` (at most `3·|nodes|` times) or pops a
successor-less node, strictly shrinking the queue, and each counting iteration
enqueues at most `|edges|` nodes. -/
def genericFuel (nodes : List NodeId) (edges : List (NodeId × NodeId)) : ℕ :=
  nodes.length * 3 * (1 + edges.length) + nodes.length + 1

/-- `ReliabilityMath.simulate_generic_flow` (`simulation_backend.py` lines 193–259).
Returns the final loop state (`none` only on fuel exhaustion, which cannot happen)
and the compression ratio. -/
def simulate_generic_flow (nodes : List NodeId) (edges : List (NodeId × NodeId))
    (raw_traffic threshold : ℚ) (scenario : String) (u : ℚ) :
    Option GenState × ℚ :=
  let init : GenState :=
    { load := fun _ => 0, state := fun _ => "Idle", flows := fun _ => 0,
      logs := [], queue := [], steps := 0, iters := 0 }
  let sources := nodes.filter (fun n => pyIn "Server" n)
  if sources.isEmpty then
    (some { init with logs := [LogEntry.noServerErr] }, 1)
  else
    let comp : ℚ × ℚ × GenState :=
      if scenarioCompression scenario then
        let c := ANSCompressor.compress {} u raw_traffic
        (c.1, c.2, { init with logs := init.logs ++ [LogEntry.ansActive raw_traffic c.1] })
      else
        (raw_traffic, 1, init)
    let traffic_to_distribute := comp.1
    let comp_ratio := comp.2.1
    let s0 := comp.2.2
    let per_server := traffic_to_distribute / (sources.length : ℚ)
    let s1 := sources.foldl
      (fun s src =>
        { s with load := upd s.load src per_server,
                 state := updS s.state src "Source",
                 queue := s.queue ++ [src] }) s0
    let max_steps := nodes.length * 3
    (genericLoop edges threshold (scenarioRerouting scenario) max_steps
      (genericFuel nodes edges) s1, comp_ratio)

/-- `ReliabilityMath.simulate_traffic_flow` dispatch (lines 114–118): the N+1
special logic runs when the graph has a `Server-1` node, otherwise the generic
propagation runs. -/
def simulate_traffic_flow (nodes : List NodeId) (edges : List (NodeId × NodeId))
    (raw_traffic : ℚ) (scenario : String) (threshold : ℚ) (u : ℚ) :
    (NPState × ℚ) ⊕ (Option GenState × ℚ) :=
  if nodes.contains "Server-1" then
    Sum.inl (simulate_nplus1 raw_traffic scenario threshold u)
  else
    Sum.inr (simulate_generic_flow nodes edges raw_traffic threshold scenario u)

/-- Nodes of the predefined "Ring Topology". -/
def ringNodes : List NodeId :=
  ["Server-Gen", "Sw1", "Sw2", "Sw3", "Sw4", "Storage-Gen"]

/-- Edges of the predefined "Ring Topology", in insertion order. -/
def ringEdges : List (NodeId × NodeId) :=
  [("Server-Gen", "Sw1"),
   ("Sw1", "Sw2"), ("Sw2", "Sw3"), ("Sw3", "Sw4"), ("Sw4", "Sw1"),
   ("Sw3", "Storage-Gen")]

/-- A switch port (`ns.py` port object as used by `FailingSwitch`): a downstream
connection handle (`none` when disconnected) and its current buffer occupancy. -/
structure Port where
  out : Option ℕ
  byte_size : ℚ

/-- State of a `FailingSwitch` (`san_components/failing_switch.py`). -/
structure FailingSwitch where
  is_failed : Bool
  current_load : ℚ
  base_mttf : ℚ
  failure_alpha : ℚ
  total_buffer_capacity : ℚ
  ports : List Port

/-- Total port-buffer occupancy read at a monitoring tick (lines 46–49). -/
def occupancy (sw : FailingSwitch) : ℚ :=
  (sw.ports.map Port.byte_size).sum

/-- `FailingSwitch.fail_switch` (lines 66–75): mark the switch failed and sever
every outgoing port connection (`port.out = None`). -/
def fail_switch (sw : FailingSwitch) : FailingSwitch :=
  { sw with is_failed := true,
            ports := sw.ports.map (fun p => { p with out := none }) }

/-- The AFTM failure rate computed at a tick (lines 53–58):
`1 / max(base_mttf · mexp(−α·L), 1e-9)` for positive load, else `1 / base_mttf`.
`mexp` is the abstract model of `math.exp`. -/
def monitor_rate (mexp : ℚ → ℚ) (sw : FailingSwitch) (L : ℚ) : ℚ :=
  if 0 < L then
    1 / max (sw.base_mttf * mexp (-(sw.failure_alpha * L))) (1 / 1000000000)
  else
    1 / sw.base_mttf

/-- One iteration of `FailingSwitch.monitor_load` (lines 43–64): re-read the load
from the port buffers, compute the AFTM rate from that fresh value, and fail the
switch when the uniform draw `u` is below `rate · interval` with `interval = 1`. -/
def monitor_tick (mexp : ℚ → ℚ) (u : ℚ) (sw : FailingSwitch) : FailingSwitch :=
  if sw.is_failed then sw
  else
    let L := occupancy sw / sw.total_buffer_capacity
    let sw1 := { sw with current_load := L }
    let failure_rate := monitor_rate mexp sw1 L
    if u < failure_rate * 1 then fail_switch sw1 else sw1

/-- First connected outbound port's target, if any (the forwarding scan of `put`). -/
def firstOut : List Port → Option ℕ
  | [] => none
  | p :: ps =>
    match p.out with
    | some o => some o
    | none => firstOut ps

/-- `FailingSwitch.put` (lines 92–108): a failed switch drops the packet; otherwise
the packet goes to the first connected outbound port; with no connected port it is
dropped.  The result is the handle the packet was forwarded to (`none` = dropped);
`put` never mutates the switch. -/
def put (sw : FailingSwitch) : Option ℕ :=
  if sw.is_failed then none else firstOut sw.ports

/-- Events that can touch a `FailingSwitch` during a run. -/
inductive SwitchOp where
  | tick (u : ℚ)
  | putPacket
  | failNow

/-- Effect of one event on the switch state: monitoring ticks may fail it,
`put` never mutates it, and `fail_switch` may be invoked directly. -/
def switchStep (mexp : ℚ → ℚ) (sw : FailingSwitch) : SwitchOp → FailingSwitch
  | SwitchOp.tick u => monitor_tick mexp u sw
  | SwitchOp.putPacket => sw
  | SwitchOp.failNow => fail_switch sw

/-- The slice of a switch's state read by the routing controller. -/
structure SwView where
  is_failed : Bool
  current_load : ℚ

/-- Edge weight assigned by `RoutingController.run` (lines 41–53): `1 + load(v)`
for a live destination, `+∞` for a failed one (`WithTop ℚ` models the float `inf`). -/
def edgeWeight (switches : NodeId → SwView) (e : NodeId × NodeId) : WithTop ℚ :=
  if (switches e.2).is_failed then ⊤
  else ((1 + (switches e.2).current_load : ℚ) : WithTop ℚ)

/-- Membership of a directed edge in the edge list. -/
def isEdge (edges : List (NodeId × NodeId)) (u v : NodeId) : Bool :=
  edges.contains (u, v)

/-- The consecutive pairs of the list are all edges. -/
def chainB (edges : List (NodeId × NodeId)) : List NodeId → Bool
  | a :: b :: rest => isEdge edges a b && chainB edges (b :: rest)
  | _ => true

/-- Total weight of a path (sum of its edge weights; `⊤` absorbs, matching
float `inf` arithmetic in the Dijkstra heap). -/
def pathWeight (w : NodeId × NodeId → WithTop ℚ) : List NodeId → WithTop ℚ
  | a :: b :: rest => w (a, b) + pathWeight w (b :: rest)
  | _ => 0

/-- All simple paths from `c` to `d`, by depth-first search avoiding `visited`.
Fuel bounds the path length. -/
def allPathsAux (edges : List (NodeId × NodeId)) (d : NodeId) :
    ℕ → List NodeId → NodeId → List (List NodeId)
  | 0, _, _ => []
  | fuel + 1, visited, c =>
    if c == d then [[d]]
    else
      (successors edges c).flatMap fun nxt =>
        if visited.contains nxt then []
        else (allPathsAux edges d fuel (c :: visited) nxt).map (fun p => c :: p)

/-- Model of `networkx.dijkstra_path` on the weighted graph: a minimum-total-weight
path from `s` to `d` among all simple paths, `none` exactly when no path exists
(`nx.NetworkXNoPath`).  Paths whose total weight is `⊤` (through `inf`-weight
edges) are still returned, as in networkx, where `inf` is an ordinary float. -/
def dijkstraModel (edges : List (NodeId × NodeId)) (w : NodeId × NodeId → WithTop ℚ)
    (numNodes : ℕ) (s d : NodeId) : Option (List NodeId) :=
  (allPathsAux edges d (numNodes + 1) [] s).foldl
    (fun best p =>
      match best with
      | none => some p
      | some q => if pathWeight w p ≤ pathWeight w q then some p else some q)
    none

/-- FIB updates along one Dijkstra path (`update_all_fibs` lines 73–82): for each
hop, `fib[dest] = next_hop` unless the hop's switch has itself failed. -/
def applyPath (switches : NodeId → SwView) (dest : NodeId) :
    List NodeId → (NodeId → NodeId → Option NodeId) → NodeId → NodeId → Option NodeId
  | a :: b :: rest, fib =>
    let fib1 : NodeId → NodeId → Option NodeId :=
      if (switches a).is_failed then fib
      else fun s' d' => if s' = a ∧ d' = dest then some b else fib s' d'
    applyPath switches dest (b :: rest) fib1
  | _, fib => fib

/-- Sum of the flows on the outgoing edges of `n` in the given edge list. -/
def outSum (flows : NodeId × NodeId → ℚ) (edges : List (NodeId × NodeId))
    (n : NodeId) : ℚ :=
  ((edges.filter (fun e => e.1 == n)).map flows).sum

/-- `itertools.permutations(nodes, 2)` in its enumeration order. -/
def nodePairs (nodes : List NodeId) : List (NodeId × NodeId) :=
  nodes.flatMap fun s => (nodes.filter (fun d => d ≠ s)).map (fun d => (s, d))

/-- `RoutingController.update_all_fibs` (lines 58–88) after the reweighting pass:
for every ordered pair of distinct nodes, find the shortest path in the weighted
graph and install next hops; pairs with no path are skipped silently. -/
def update_all_fibs (nodes : List NodeId) (edges : List (NodeId × NodeId))
    (switches : NodeId → SwView) (fib0 : NodeId → NodeId → Option NodeId) :
    NodeId → NodeId → Option NodeId :=
  (nodePairs nodes).foldl
    (fun fib sd =>
      match dijkstraModel edges (edgeWeight switches) nodes.length sd.1 sd.2 with
      | none => fib
      | some path => applyPath switches sd.2 path fib)
    fib0

/-- A two-switch view for the routing controller in which `SW2` has failed and
both switches are idle. -/
def twoNodeFailedView : NodeId → SwView :=
  fun n => if n = "SW2" then ⟨true, 0⟩ else ⟨false, 0⟩

/-- A first-layer step does not change edge flows other than on its main and
standby edges. -/
theorem firstLayerStep_flows_ne (thr : ℚ) (rr : Bool) (sw target : NodeId)
    (s : NPState) (k : NodeId × NodeId)
    (h1 : k ≠ (sw, target)) (h2 : k ≠ (sw, "Sw-Standby")) :
    (firstLayerStep thr rr sw target s).flows k = s.flows k := by
  unfold firstLayerStep
  rcases Bool.dichotomy rr with hr | hr <;> subst hr <;>
    by_cases hl : s.load sw > thr <;>
      simp only [hl, if_true, if_false, ite_true, ite_false, Bool.false_eq_true,
        if_pos, if_neg, not_false_iff] <;>
    split_ifs <;>
    simp [updE, h1, h2]

/-- A first-layer step does not change node states other than of its own switch
and the standby. -/
theorem firstLayerStep_state_ne (thr : ℚ) (rr : Bool) (sw target : NodeId)
    (s : NPState) (n : NodeId) (h1 : n ≠ sw) (h2 : n ≠ "Sw-Standby") :
    (firstLayerStep thr rr sw target s).state n = s.state n := by
  unfold firstLayerStep
  rcases Bool.dichotomy rr with hr | hr <;> subst hr <;>
    by_cases hl : s.load sw > thr <;>
      simp only [hl, if_true, if_false, ite_true, ite_false, Bool.false_eq_true,
        if_pos, if_neg, not_false_iff] <;>
    split_ifs <;>
    simp [updS, h1, h2]

/-- A first-layer step does not change node loads other than of its target and
the standby. -/
theorem firstLayerStep_load_ne (thr : ℚ) (rr : Bool) (sw target : NodeId)
    (s : NPState) (n : NodeId) (h1 : n ≠ target) (h2 : n ≠ "Sw-Standby") :
    (firstLayerStep thr rr sw target s).load n = s.load n := by
  unfold firstLayerStep
  rcases Bool.dichotomy rr with hr | hr <;> subst hr <;>
    by_cases hl : s.load sw > thr <;>
      simp only [hl, if_true, if_false, ite_true, ite_false, Bool.false_eq_true,
        if_pos, if_neg, not_false_iff] <;>
    split_ifs <;>
    simp [upd, h1, h2]

/-- A first-layer step only appends to the log. -/
theorem firstLayerStep_logs_mono (thr : ℚ) (rr : Bool) (sw target : NodeId)
    (s : NPState) (x : LogEntry) (h : x ∈ s.logs) :
    x ∈ (firstLayerStep thr rr sw target s).logs := by
  unfold firstLayerStep
  rcases Bool.dichotomy rr with hr | hr <;> subst hr <;>
    by_cases hl : s.load sw > thr <;>
      simp only [hl, if_true, if_false, ite_true, ite_false, Bool.false_eq_true,
        if_pos, if_neg, not_false_iff] <;>
    split_ifs <;>
    simp [h]

/-- The standby's state after a first-layer step is its old state or "Active". -/
theorem firstLayerStep_state_standby (thr : ℚ) (rr : Bool) (sw target : NodeId)
    (s : NPState) (h : sw ≠ "Sw-Standby") :
    (firstLayerStep thr rr sw target s).state "Sw-Standby" = s.state "Sw-Standby"
    ∨ (firstLayerStep thr rr sw target s).state "Sw-Standby" = "Active" := by
  unfold firstLayerStep
  rcases Bool.dichotomy rr with hr | hr <;> subst hr <;>
    by_cases hl : s.load sw > thr <;>
      simp only [hl, if_true, if_false, ite_true, ite_false, Bool.false_eq_true,
        if_pos, if_neg, not_false_iff] <;>
    split_ifs <;>
    simp [updS, h, Ne.symm h]

/-- Behavior of a first-layer step on a switch whose load is within threshold. -/
theorem firstLayerStep_safe (thr : ℚ) (rr : Bool) (sw target : NodeId)
    (s : NPState) (h : ¬ s.load sw > thr)
    (h1 : sw ≠ target) (h2 : sw ≠ "Sw-Standby") (h3 : target ≠ "Sw-Standby") :
    (firstLayerStep thr rr sw target s).state sw = "Safe"
    ∧ (firstLayerStep thr rr sw target s).flows (sw, target) = s.load sw
    ∧ (firstLayerStep thr rr sw target s).flows (sw, "Sw-Standby")
        = s.flows (sw, "Sw-Standby")
    ∧ (firstLayerStep thr rr sw target s).load sw = s.load sw
    ∧ (firstLayerStep thr rr sw target s).load target = s.load target + s.load sw
    ∧ (firstLayerStep thr rr sw target s).load "Sw-Standby" = s.load "Sw-Standby"
    ∧ (firstLayerStep thr rr sw target s).logs = s.logs := by
  unfold firstLayerStep
  simp [h, updE, updS, upd, h1, h2, h3, Ne.symm h1, Ne.symm h2, Ne.symm h3, lt_irrefl]

/-- Behavior of a first-layer step on an overloaded switch with rerouting on:
the main edge carries exactly `threshold·0.95`, the remainder goes to the
standby unconditionally, the state becomes "Rerouted" and a reroute entry is
logged. -/
theorem firstLayerStep_reroute (thr : ℚ) (sw target : NodeId)
    (s : NPState) (h : s.load sw > thr) (hthr : 0 < thr)
    (h1 : sw ≠ target) (h2 : sw ≠ "Sw-Standby") (h3 : target ≠ "Sw-Standby") :
    (firstLayerStep thr true sw target s).state sw = "Rerouted"
    ∧ (firstLayerStep thr true sw target s).flows (sw, target) = thr * (95 / 100)
    ∧ (firstLayerStep thr true sw target s).flows (sw, "Sw-Standby")
        = s.load sw - thr * (95 / 100)
    ∧ (firstLayerStep thr true sw target s).load sw = s.load sw
    ∧ (firstLayerStep thr true sw target s).load "Sw-Standby"
        = s.load "Sw-Standby" + (s.load sw - thr * (95 / 100))
    ∧ (firstLayerStep thr true sw target s).logs
        = s.logs ++ [LogEntry.rerouteWarn sw (s.load sw - thr * (95 / 100))]
    ∧ (firstLayerStep thr true sw target s).state "Sw-Standby" = "Active" := by
  have hpos : s.load sw - thr * (95 / 100) > 0 := by nlinarith
  unfold firstLayerStep
  simp [h, hpos, updE, updS, upd, h1, h2, h3, Ne.symm h1, Ne.symm h2, Ne.symm h3]

/-- Behavior of a first-layer step on an overloaded switch with rerouting off:
the switch fails, its main edge carries 0 and a failure entry is logged. -/
theorem firstLayerStep_fail (thr : ℚ) (sw target : NodeId)
    (s : NPState) (h : s.load sw > thr)
    (h1 : sw ≠ target) (h2 : sw ≠ "Sw-Standby") (h3 : target ≠ "Sw-Standby") :
    (firstLayerStep thr false sw target s).state sw = "Failure"
    ∧ (firstLayerStep thr false sw target s).flows (sw, target) = 0
    ∧ (firstLayerStep thr false sw target s).flows (sw, "Sw-Standby")
        = s.flows (sw, "Sw-Standby")
    ∧ (firstLayerStep thr false sw target s).load sw = s.load sw
    ∧ (firstLayerStep thr false sw target s).load target = s.load target + 0
    ∧ (firstLayerStep thr false sw target s).load "Sw-Standby" = s.load "Sw-Standby"
    ∧ (firstLayerStep thr false sw target s).logs
        = s.logs ++ [LogEntry.failureCrit sw] := by
  unfold firstLayerStep
  simp [h, updE, updS, upd, h1, h2, h3, Ne.symm h1, Ne.symm h2, Ne.symm h3, lt_irrefl]

/-- A second-layer step with non-positive load is the identity. -/
theorem secondLayerStep_nonpos (thr : ℚ) (sw : NodeId) (s : NPState)
    (h : ¬ s.load sw > 0) :
    secondLayerStep thr sw s = s := by
  unfold secondLayerStep
  simp [h]

/-- A second-layer step does not change edge flows other than on its edge to
storage. -/
theorem secondLayerStep_flows_ne (thr : ℚ) (sw : NodeId) (s : NPState)
    (k : NodeId × NodeId) (h : k ≠ (sw, "Storage-1")) :
    (secondLayerStep thr sw s).flows k = s.flows k := by
  unfold secondLayerStep
  by_cases h0 : s.load sw > 0 <;> by_cases h1 : s.load sw > thr <;>
    simp [h0, h1, updE, h]

/-- A second-layer step does not change node states other than of its own switch. -/
theorem secondLayerStep_state_ne (thr : ℚ) (sw : NodeId) (s : NPState)
    (n : NodeId) (h : n ≠ sw) :
    (secondLayerStep thr sw s).state n = s.state n := by
  unfold secondLayerStep
  by_cases h0 : s.load sw > 0 <;> by_cases h1 : s.load sw > thr <;>
    simp [h0, h1, updS, h]

/-- A second-layer step does not change node loads other than of the storage
node. -/
theorem secondLayerStep_load_ne (thr : ℚ) (sw : NodeId) (s : NPState)
    (n : NodeId) (h : n ≠ "Storage-1") :
    (secondLayerStep thr sw s).load n = s.load n := by
  unfold secondLayerStep
  by_cases h0 : s.load sw > 0 <;> by_cases h1 : s.load sw > thr <;>
    simp [h0, h1, upd, h]

/-- A second-layer step does not change the log. -/
theorem secondLayerStep_logs (thr : ℚ) (sw : NodeId) (s : NPState) :
    (secondLayerStep thr sw s).logs = s.logs := by
  unfold secondLayerStep
  by_cases h0 : s.load sw > 0 <;> by_cases h1 : s.load sw > thr <;>
    simp [h0, h1]

/-- Behavior of a second-layer step on an overloaded switch. -/
theorem secondLayerStep_over (thr : ℚ) (sw : NodeId) (s : NPState)
    (h0 : s.load sw > 0) (h : s.load sw > thr) (hsw : sw ≠ "Storage-1") :
    (secondLayerStep thr sw s).state sw = "Overload"
    ∧ (secondLayerStep thr sw s).flows (sw, "Storage-1") = 0
    ∧ (secondLayerStep thr sw s).load sw = s.load sw := by
  unfold secondLayerStep
  simp [h0, h, updS, updE]

/-- Behavior of a second-layer step on a loaded but safe switch. -/
theorem secondLayerStep_safe (thr : ℚ) (sw : NodeId) (s : NPState)
    (h0 : s.load sw > 0) (h : ¬ s.load sw > thr) (hsw : sw ≠ "Storage-1") :
    (secondLayerStep thr sw s).state sw = "Safe"
    ∧ (secondLayerStep thr sw s).flows (sw, "Storage-1") = s.load sw
    ∧ (secondLayerStep thr sw s).load sw = s.load sw := by
  unfold secondLayerStep
  simp [h0, h, updS, updE, upd, hsw, Ne.symm hsw]

/-- C1: with 1800 MB/s into the N+1 fabric, split 60/40, threshold 1000 and no
defenses, the 60%-branch switch SwA1 (load 1080) ends in the failed state
("Failure") with zero forwarded flow on its downstream edge and zero flow
further down that branch, the 40%-branch switch SwB1 (load 720) ends "Safe",
exactly one failure entry for SwA1 is appended to the event log, and the
reported compression ratio is 1. -/
theorem C1_scenarioE2 :
    ((simulate_nplus1 1800 "Baseline" 1000 0).1.load "SwA1" = 1080)
    ∧ ((simulate_nplus1 1800 "Baseline" 1000 0).1.state "SwA1" = "Failure")
    ∧ ((simulate_nplus1 1800 "Baseline" 1000 0).1.flows ("SwA1", "SwA2") = 0)
    ∧ ((simulate_nplus1 1800 "Baseline" 1000 0).1.flows ("SwA2", "Storage-1") = 0)
    ∧ ((simulate_nplus1 1800 "Baseline" 1000 0).1.load "SwB1" = 720)
    ∧ ((simulate_nplus1 1800 "Baseline" 1000 0).1.state "SwB1" = "Safe")
    ∧ ((simulate_nplus1 1800 "Baseline" 1000 0).1.logs = [LogEntry.failureCrit "SwA1"])
    ∧ ((simulate_nplus1 1800 "Baseline" 1000 0).2 = 1) := by
  decide

/-- C2 counterexample: with 4000 MB/s, threshold 1000 and rerouting enabled,
SwA1 first pushes 1450 MB/s onto Sw-Standby, so when SwB1 is processed the
standby's load (≥ 1450) already exceeds the threshold 1000; the claim says SwB1
must then fail, but the code still sets SwB1 to "Rerouted" and routes its excess
650 MB/s to the standby (final standby load 2100), never checking the standby's
capacity. -/
theorem C2_counterexample :
    ((simulate_nplus1 4000 "Dynamic Rerouting" 1000 0).1.flows ("SwA1", "Sw-Standby") = 1450)
    ∧ ((1000 : ℚ) < 1450)
    ∧ ((simulate_nplus1 4000 "Dynamic Rerouting" 1000 0).1.state "SwB1" = "Rerouted")
    ∧ ((simulate_nplus1 4000 "Dynamic Rerouting" 1000 0).1.state "SwB1" ≠ "Failure")
    ∧ ((simulate_nplus1 4000 "Dynamic Rerouting" 1000 0).1.flows ("SwB1", "Sw-Standby") = 650)
    ∧ ((simulate_nplus1 4000 "Dynamic Rerouting" 1000 0).1.load "Sw-Standby" = 2100) := by
  decide

/-- C3 counterexample: with 10000 MB/s, threshold 1000 and rerouting enabled,
the switch-role node SwA1 places 5050 MB/s (> threshold) on its standby edge,
its total outgoing flow is 6000 (> threshold·0.95 = 950), and the switch-role
standby node forwards 8100 MB/s on its single outgoing edge — so flow out of a
switch-role node is not bounded by the threshold on every edge. -/
theorem C3_counterexample :
    ((simulate_nplus1 10000 "Dynamic Rerouting" 1000 0).1.flows ("SwA1", "Sw-Standby") = 5050)
    ∧ ((1000 : ℚ) < 5050)
    ∧ ((simulate_nplus1 10000 "Dynamic Rerouting" 1000 0).1.flows ("SwA1", "SwA2") = 950)
    ∧ ((simulate_nplus1 10000 "Dynamic Rerouting" 1000 0).1.flows ("Sw-Standby", "Storage-1") = 8100) := by
  decide

/-- C4 counterexample: on the Ring topology with 1000 MB/s and threshold 1200,
Sw1 is first processed as Safe and forwards 1000 on (Sw1, Sw2); the ring feeds
another 500 back into Sw1, it is re-processed with load 1500 > 1200 and crashes,
but its previously recorded downstream flow of 1000 on (Sw1, Sw2) is left in
place — a node in a failed state contributes non-zero flow on its downstream
edge. -/
theorem C4_counterexample :
    (((simulate_generic_flow ringNodes ringEdges 1000 1200 "Baseline" 0).1.map
        (fun s => (s.state "Sw1", s.flows ("Sw1", "Sw2"), s.load "Sw1")))
      = some ("Crashed", 1000, 1500))
    ∧ ((1000 : ℚ) ≠ 0) := by
  decide

/-- C8 counterexample: in a two-node graph with edge SW1 → SW2 where SW2 has
failed, the recompute assigns weight ⊤ to the edge, yet `update_all_fibs` still
installs `fib[SW1][SW2] = SW2` (the infinite-weight path [SW1, SW2] is returned
by the shortest-path search, as with `float('inf')` in networkx) — a FIB entry
does name the failed node as next hop. -/
theorem C8_counterexample :
    ((twoNodeFailedView "SW2").is_failed = true)
    ∧ (edgeWeight twoNodeFailedView ("SW1", "SW2") = ⊤)
    ∧ (update_all_fibs ["SW1", "SW2"] [("SW1", "SW2")] twoNodeFailedView
        (fun _ _ => none) "SW1" "SW2" = some "SW2") := by
  decide

/-- C9 counterexample: invalid numeric inputs are not rejected — with negative
traffic (−100 MB/s, threshold 1000) the engine runs to completion and produces a
full snapshot (server load −100, SwA1 carrying −60 and marked "Safe"), and with
a non-positive threshold (−5) it likewise runs and marks SwA1 "Failure". -/
theorem C9_counterexample :
    ((simulate_nplus1 (-100) "Baseline" 1000 0).1.load "Server-1" = -100)
    ∧ ((simulate_nplus1 (-100) "Baseline" 1000 0).1.flows ("Server-1", "SwA1") = -60)
    ∧ ((simulate_nplus1 (-100) "Baseline" 1000 0).1.state "SwA1" = "Safe")
    ∧ ((simulate_nplus1 (-100) "Baseline" 1000 0).1.load "SwA1" = -60)
    ∧ ((simulate_nplus1 200 "Baseline" (-5) 0).1.state "SwA1" = "Failure")
    ∧ ((simulate_nplus1 200 "Baseline" (-5) 0).1.load "SwA1" = 120) := by
  decide

/-- C10 counterexample: on the Ring topology (6 nodes, so the claimed bound is
3·6 = 18 iterations) with 16 MB/s and a huge threshold, the frontier loop
executes 22 iterations: the four pops of the successor-less Storage-Gen node
`continue` without incrementing the step counter, so "each iteration increments
a step counter" and the ≤ 3·|nodes| iteration bound are both false (the loop
still terminates, exiting with steps = 18). -/
theorem C10_counterexample :
    (((simulate_generic_flow ringNodes ringEdges 16 1000000 "Baseline" 0).1.map
        (fun s => (s.iters, s.steps))) = some (22, 18))
    ∧ ringNodes.length * 3 = 18
    ∧ 18 < 22 := by
  decide

/-- C5: when compression is not part of the scenario the engine injects the raw
traffic unchanged and reports a compression ratio of exactly 1; when compression
is enabled it derives one ratio from the single uniform draw (lying in
[1.2, 2.8] for a unit draw), injects `raw/ratio`, uses that same ratio for both
paths of the cycle (the 60% and 40% branch flows are both computed from it, with
no re-sampling), returns the ratio in the snapshot, and logs the compression. -/
theorem C5_compression (raw thr u : ℚ) (scenario : String) :
    (scenarioCompression scenario = false →
      (simulate_nplus1 raw scenario thr u).2 = 1
      ∧ (simulate_nplus1 raw scenario thr u).1.load "Server-1" = raw
      ∧ (simulate_nplus1 raw scenario thr u).1.flows ("Server-1", "SwA1") = raw * (6 / 10)
      ∧ (simulate_nplus1 raw scenario thr u).1.flows ("Server-1", "SwB1") = raw * (4 / 10))
    ∧ (scenarioCompression scenario = true → 0 ≤ u → u ≤ 1 →
      (12 / 10 ≤ uniform (12 / 10) (28 / 10) u ∧ uniform (12 / 10) (28 / 10) u ≤ 28 / 10)
      ∧ (simulate_nplus1 raw scenario thr u).2 = uniform (12 / 10) (28 / 10) u
      ∧ (simulate_nplus1 raw scenario thr u).1.load "Server-1"
          = raw / uniform (12 / 10) (28 / 10) u
      ∧ (simulate_nplus1 raw scenario thr u).1.flows ("Server-1", "SwA1")
          = raw / uniform (12 / 10) (28 / 10) u * (6 / 10)
      ∧ (simulate_nplus1 raw scenario thr u).1.flows ("Server-1", "SwB1")
          = raw / uniform (12 / 10) (28 / 10) u * (4 / 10)
      ∧ LogEntry.ansActive raw (raw / uniform (12 / 10) (28 / 10) u)
          ∈ (simulate_nplus1 raw scenario thr u).1.logs) := by
  constructor
  · intro hc
    refine ⟨?_, ?_, ?_, ?_⟩
    · simp [simulate_nplus1, hc]
    · simp only [simulate_nplus1, hc, Bool.false_eq_true, if_false]
      split_ifs with hsb <;>
        simp (disch := decide) [secondLayerStep_load_ne, firstLayerStep_load_ne, upd,
          updS, updE]
    · simp only [simulate_nplus1, hc, Bool.false_eq_true, if_false]
      split_ifs with hsb <;>
        simp (disch := decide) [secondLayerStep_flows_ne, firstLayerStep_flows_ne, upd,
          updS, updE]
    · simp only [simulate_nplus1, hc, Bool.false_eq_true, if_false]
      split_ifs with hsb <;>
        simp (disch := decide) [secondLayerStep_flows_ne, firstLayerStep_flows_ne, upd,
          updS, updE]
  · intro hc hu0 hu1
    have hrange : (12 / 10 : ℚ) ≤ uniform (12 / 10) (28 / 10) u
        ∧ uniform (12 / 10) (28 / 10) u ≤ 28 / 10 := by
      constructor <;> (unfold uniform; nlinarith)
    refine ⟨hrange, ?_, ?_, ?_, ?_, ?_⟩
    · simp [simulate_nplus1, hc, ANSCompressor.compress]
    · simp only [simulate_nplus1, hc, eq_self_iff_true, if_true]
      split_ifs with hsb <;>
        simp (disch := decide) [secondLayerStep_load_ne, firstLayerStep_load_ne, upd,
          updS, updE, ANSCompressor.compress]
    · simp only [simulate_nplus1, hc, eq_self_iff_true, if_true]
      split_ifs with hsb <;>
        simp (disch := decide) [secondLayerStep_flows_ne, firstLayerStep_flows_ne, upd,
          updS, updE, ANSCompressor.compress]
    · simp only [simulate_nplus1, hc, eq_self_iff_true, if_true]
      split_ifs with hsb <;>
        simp (disch := decide) [secondLayerStep_flows_ne, firstLayerStep_flows_ne, upd,
          updS, updE, ANSCompressor.compress]
    · simp only [simulate_nplus1, hc, eq_self_iff_true, if_true]
      split_ifs with hsb <;>
      · simp only [secondLayerStep_logs]
        apply firstLayerStep_logs_mono
        apply firstLayerStep_logs_mono
        simp [ANSCompressor.compress]

/-- Witness for C5 at concrete inputs: scenario "Baseline" (no compression) and
scenario "Full Defense" (compression active) with unit draw 1/2. -/
theorem C5_witness :
    ((simulate_nplus1 100 "Baseline" 1000 (1 / 2)).2 = 1
      ∧ (simulate_nplus1 100 "Baseline" 1000 (1 / 2)).1.load "Server-1" = 100
      ∧ (simulate_nplus1 100 "Baseline" 1000 (1 / 2)).1.flows ("Server-1", "SwA1") = 100 * (6 / 10)
      ∧ (simulate_nplus1 100 "Baseline" 1000 (1 / 2)).1.flows ("Server-1", "SwB1") = 100 * (4 / 10))
    ∧ ((12 / 10 ≤ uniform (12 / 10) (28 / 10) (1 / 2) ∧ uniform (12 / 10) (28 / 10) (1 / 2) ≤ 28 / 10)
      ∧ (simulate_nplus1 100 "Full Defense" 1000 (1 / 2)).2 = uniform (12 / 10) (28 / 10) (1 / 2)
      ∧ (simulate_nplus1 100 "Full Defense" 1000 (1 / 2)).1.load "Server-1"
          = 100 / uniform (12 / 10) (28 / 10) (1 / 2)
      ∧ (simulate_nplus1 100 "Full Defense" 1000 (1 / 2)).1.flows ("Server-1", "SwA1")
          = 100 / uniform (12 / 10) (28 / 10) (1 / 2) * (6 / 10)
      ∧ (simulate_nplus1 100 "Full Defense" 1000 (1 / 2)).1.flows ("Server-1", "SwB1")
          = 100 / uniform (12 / 10) (28 / 10) (1 / 2) * (4 / 10)
      ∧ LogEntry.ansActive 100 (100 / uniform (12 / 10) (28 / 10) (1 / 2))
          ∈ (simulate_nplus1 100 "Full Defense" 1000 (1 / 2)).1.logs) :=
  ⟨(C5_compression 100 1000 (1 / 2) "Baseline").1 (by decide),
   (C5_compression 100 1000 (1 / 2) "Full Defense").2 (by decide) (by norm_num) (by norm_num)⟩

/-- C6: at a monitoring tick the load L is re-read from the port buffers (not a
stale value), the failure rate equals `(1/base_mttf) · mexp(α·L)` — i.e.
`λ0 · e^(α·L)` with `λ0 = 1/base_mttf` — whenever the 1e-9 clamp on the scaled
MTTF is not binding, and the switch transitions to Failed exactly when the
uniform draw `u` is below `rate · interval` with `interval = 1`.  `mexp` is the
abstract exponential (hypotheses state the inverse law it satisfies at L). -/
theorem C6_aftm (mexp : ℚ → ℚ) (sw : FailingSwitch) (u L : ℚ)
    (hLdef : L = occupancy sw / sw.total_buffer_capacity)
    (hnf : sw.is_failed = false)
    (hL : 0 < L)
    (hinv : mexp (-(sw.failure_alpha * L)) * mexp (sw.failure_alpha * L) = 1)
    (hclamp : 1 / 1000000000 ≤ sw.base_mttf * mexp (-(sw.failure_alpha * L))) :
    ((monitor_tick mexp u sw).current_load = L)
    ∧ (monitor_rate mexp sw L = 1 / sw.base_mttf * mexp (sw.failure_alpha * L))
    ∧ ((monitor_tick mexp u sw).is_failed = true ↔
        u < 1 / sw.base_mttf * mexp (sw.failure_alpha * L) * 1) := by
  have hrate : monitor_rate mexp sw L = 1 / sw.base_mttf * mexp (sw.failure_alpha * L) := by
    unfold monitor_rate
    rw [if_pos hL, max_eq_left hclamp, one_div, mul_inv, ← one_div,
      inv_eq_of_mul_eq_one_right hinv]
  refine ⟨?_, hrate, ?_⟩
  · simp only [monitor_tick, ← hLdef]
    rw [if_neg (show ¬ sw.is_failed = true by simp [hnf])]
    split_ifs <;> simp [fail_switch]
  · simp only [monitor_tick, ← hLdef]
    rw [if_neg (show ¬ sw.is_failed = true by simp [hnf])]
    have hrate2 : monitor_rate mexp { sw with current_load := L } L
        = monitor_rate mexp sw L := rfl
    rw [hrate2, hrate]
    split_ifs with hcond
    · simp only [fail_switch]
      simpa [one_div, mul_one] using hcond
    · simp only [hnf, Bool.false_eq_true, false_iff, not_lt]
      simpa [one_div, mul_one, not_lt] using hcond


/-- Witness for C6: a live switch with base MTTF 10000, sensitivity 0, buffer
capacity 10 and occupancy 5 (load 1/2), with the constant-1 exponential model. -/
theorem C6_witness :
    ((1 : ℚ) / 2 = occupancy ⟨false, 0, 10000, 0, 10, [⟨some 0, 5⟩]⟩ / (10 : ℚ))
    ∧ ((monitor_tick (fun _ => 1) 1 ⟨false, 0, 10000, 0, 10, [⟨some 0, 5⟩]⟩).current_load = 1 / 2)
    ∧ (monitor_rate (fun _ => 1) ⟨false, 0, 10000, 0, 10, [⟨some 0, 5⟩]⟩ (1 / 2)
        = 1 / 10000 * 1)
    ∧ ((monitor_tick (fun _ => 1) 1 ⟨false, 0, 10000, 0, 10, [⟨some 0, 5⟩]⟩).is_failed = true ↔
        (1 : ℚ) < 1 / 10000 * 1 * 1) :=
  ⟨by decide,
    C6_aftm (fun _ => 1) ⟨false, 0, 10000, 0, 10, [⟨some 0, 5⟩]⟩ 1 (1 / 2)
      (by decide) rfl (by norm_num) (by norm_num) (by norm_num)⟩

/-- C7: failure is terminal — once `is_failed` is true it stays true under any
sequence of monitoring ticks, packet puts and direct failures; `put` on a failed
switch forwards nothing (the packet is dropped); and `fail_switch` severs every
outgoing port connection at the moment of failure. -/
theorem C7_terminal (mexp : ℚ → ℚ) (sw : FailingSwitch) (ops : List SwitchOp)
    (h : sw.is_failed = true) :
    ((ops.foldl (switchStep mexp) sw).is_failed = true)
    ∧ put (ops.foldl (switchStep mexp) sw) = none
    ∧ (∀ p ∈ (fail_switch sw).ports, p.out = none) := by
  have hstep : ∀ (t : FailingSwitch) (op : SwitchOp), t.is_failed = true →
      (switchStep mexp t op).is_failed = true := by
    intro t op ht
    cases op with
    | tick u => simp [switchStep, monitor_tick, ht]
    | putPacket => exact ht
    | failNow => simp [switchStep, fail_switch]
  have hfold : ∀ (l : List SwitchOp) (t : FailingSwitch), t.is_failed = true →
      (l.foldl (switchStep mexp) t).is_failed = true := by
    intro l
    induction l with
    | nil => intro t ht; exact ht
    | cons op rest ih => intro t ht; exact ih _ (hstep t op ht)
  refine ⟨hfold ops sw h, ?_, ?_⟩
  · unfold put
    rw [if_pos (hfold ops sw h)]
  · intro p hp
    simp only [fail_switch, List.mem_map] at hp
    obtain ⟨q, _, rfl⟩ := hp
    rfl

/-- Witness for C7: an already-failed switch stays failed and drops packets
across a tick and a put. -/
theorem C7_witness :
    ((([SwitchOp.tick 0, SwitchOp.putPacket].foldl (switchStep (fun _ => 1))
        ⟨true, 0, 10000, 1 / 2, 1, [⟨some 0, 0⟩]⟩).is_failed = true)
    ∧ put ([SwitchOp.tick 0, SwitchOp.putPacket].foldl (switchStep (fun _ => 1))
        ⟨true, 0, 10000, 1 / 2, 1, [⟨some 0, 0⟩]⟩) = none
    ∧ (∀ p ∈ (fail_switch ⟨true, 0, 10000, 1 / 2, 1, [⟨some 0, 0⟩]⟩).ports, p.out = none)) :=
  C7_terminal (fun _ => 1) ⟨true, 0, 10000, 1 / 2, 1, [⟨some 0, 0⟩]⟩
    [SwitchOp.tick 0, SwitchOp.putPacket] rfl

/-- C2 (amended): when a first-layer switch's load exceeds the threshold and
rerouting is enabled, it forwards exactly `threshold·0.95` on its primary edge
and routes the remainder to Sw-Standby unconditionally — the standby's own load
is never checked and the node never fails in this branch; the status becomes
"Rerouted" and a reroute entry is appended to the log. -/
theorem C2_amended (thr : ℚ) (sw target : NodeId) (s : NPState)
    (hload : s.load sw > thr) (hthr : 0 < thr)
    (h1 : sw ≠ target) (h2 : sw ≠ "Sw-Standby") (h3 : target ≠ "Sw-Standby") :
    (firstLayerStep thr true sw target s).state sw = "Rerouted"
    ∧ (firstLayerStep thr true sw target s).flows (sw, target) = thr * (95 / 100)
    ∧ (firstLayerStep thr true sw target s).flows (sw, "Sw-Standby")
        = s.load sw - thr * (95 / 100)
    ∧ (firstLayerStep thr true sw target s).load "Sw-Standby"
        = s.load "Sw-Standby" + (s.load sw - thr * (95 / 100))
    ∧ LogEntry.rerouteWarn sw (s.load sw - thr * (95 / 100))
        ∈ (firstLayerStep thr true sw target s).logs := by
  obtain ⟨ha, hb, hc, _, he, hf, _⟩ :=
    firstLayerStep_reroute thr sw target s hload hthr h1 h2 h3
  refine ⟨ha, hb, hc, he, ?_⟩
  rw [hf]
  simp

/-- Witness for C2 (amended): a switch with load 2000 against threshold 1000. -/
theorem C2_witness :
    (firstLayerStep 1000 true "SwA1" "SwA2"
        ⟨fun n => if n = "SwA1" then 2000 else 0, fun _ => "Idle", fun _ => 0, []⟩).state "SwA1"
      = "Rerouted"
    ∧ (firstLayerStep 1000 true "SwA1" "SwA2"
        ⟨fun n => if n = "SwA1" then 2000 else 0, fun _ => "Idle", fun _ => 0, []⟩).flows ("SwA1", "SwA2")
      = 1000 * (95 / 100)
    ∧ (firstLayerStep 1000 true "SwA1" "SwA2"
        ⟨fun n => if n = "SwA1" then 2000 else 0, fun _ => "Idle", fun _ => 0, []⟩).flows ("SwA1", "Sw-Standby")
      = (if ("SwA1" : String) = "SwA1" then (2000 : ℚ) else 0) - 1000 * (95 / 100)
    ∧ (firstLayerStep 1000 true "SwA1" "SwA2"
        ⟨fun n => if n = "SwA1" then 2000 else 0, fun _ => "Idle", fun _ => 0, []⟩).load "Sw-Standby"
      = (if ("Sw-Standby" : String) = "SwA1" then (2000 : ℚ) else 0)
        + ((if ("SwA1" : String) = "SwA1" then (2000 : ℚ) else 0) - 1000 * (95 / 100))
    ∧ LogEntry.rerouteWarn "SwA1"
        ((if ("SwA1" : String) = "SwA1" then (2000 : ℚ) else 0) - 1000 * (95 / 100))
      ∈ (firstLayerStep 1000 true "SwA1" "SwA2"
        ⟨fun n => if n = "SwA1" then 2000 else 0, fun _ => "Idle", fun _ => 0, []⟩).logs :=
  C2_amended 1000 "SwA1" "SwA2"
    ⟨fun n => if n = "SwA1" then 2000 else 0, fun _ => "Idle", fun _ => 0, []⟩
    (by norm_num) (by norm_num) (by decide) (by decide) (by decide)


/-- The flow a first-layer step places on its primary (main) edge never exceeds
the threshold: it is the load itself (when within threshold), `threshold·0.95`
(rerouted) or 0 (failed). -/
theorem firstLayerStep_main_le (thr : ℚ) (rr : Bool) (sw target : NodeId)
    (s : NPState) (hthr : 0 < thr) (h3 : target ≠ "Sw-Standby") :
    (firstLayerStep thr rr sw target s).flows (sw, target) ≤ thr := by
  unfold firstLayerStep
  rcases Bool.dichotomy rr with hr | hr <;> subst hr <;>
    by_cases hl : s.load sw > thr <;>
      simp only [hl, if_true, if_false, ite_true, ite_false, Bool.false_eq_true,
        if_pos, if_neg, not_false_iff] <;>
    split_ifs <;>
    simp [updE, h3] <;>
    linarith

/-- C9 (amended): invalid numeric inputs are not rejected — there is no
validation anywhere in the engine.  For any negative traffic and positive
threshold the N+1 engine runs to completion and produces an ordinary snapshot:
the server carries the negative load, SwA1 receives 60% of it and, since a
negative load is below the threshold, is marked "Safe" and forwards it on. -/
theorem C9_amended (raw thr u : ℚ) (hraw : raw < 0) (hthr : 0 < thr) :
    (simulate_nplus1 raw "Baseline" thr u).1.load "Server-1" = raw
    ∧ (simulate_nplus1 raw "Baseline" thr u).1.load "SwA1" = raw * (6 / 10)
    ∧ (simulate_nplus1 raw "Baseline" thr u).1.state "SwA1" = "Safe"
    ∧ (simulate_nplus1 raw "Baseline" thr u).1.flows ("SwA1", "SwA2") = raw * (6 / 10) := by
  have hc : scenarioCompression "Baseline" = false := by decide
  have hr : scenarioRerouting "Baseline" = false := by decide
  refine ⟨?_, ?_, ?_, ?_⟩
  · simp only [simulate_nplus1, hc, Bool.false_eq_true, if_false]
    split_ifs with hsb <;>
      simp (disch := decide) [secondLayerStep_load_ne, firstLayerStep_load_ne, upd,
        updS, updE]
  · simp only [simulate_nplus1, hc, Bool.false_eq_true, if_false]
    split_ifs with hsb <;>
      simp (disch := decide) [secondLayerStep_load_ne, firstLayerStep_load_ne, upd,
        updS, updE]
  · simp only [simulate_nplus1, hc, hr, Bool.false_eq_true, if_false]
    split_ifs with hsb
    · simp (disch := decide) only [secondLayerStep_state_ne, firstLayerStep_state_ne,
        updS, String.reduceEq, ite_false, ite_true, if_neg, if_pos, not_false_iff]
      rw [(firstLayerStep_safe thr false "SwA1" "SwA2" _ ?hA1 (by decide) (by decide)
        (by decide)).1]
      case hA1 => simp [upd]; nlinarith
    · simp (disch := decide) only [secondLayerStep_state_ne, firstLayerStep_state_ne,
        updS, String.reduceEq, ite_false, ite_true, if_neg, if_pos, not_false_iff]
      rw [(firstLayerStep_safe thr false "SwA1" "SwA2" _ ?hA2 (by decide) (by decide)
        (by decide)).1]
      case hA2 => simp [upd]; nlinarith
  · simp only [simulate_nplus1, hc, hr, Bool.false_eq_true, if_false]
    split_ifs with hsb
    · simp (disch := decide) only [secondLayerStep_flows_ne, firstLayerStep_flows_ne,
        updE, Prod.mk.injEq, String.reduceEq, ite_false, ite_true, if_neg, if_pos,
        not_false_iff, false_and, and_false]
      rw [(firstLayerStep_safe thr false "SwA1" "SwA2" _ ?hA3 (by decide) (by decide)
        (by decide)).2.1]
      case hA3 => simp [upd]; nlinarith
      simp [upd]
    · simp (disch := decide) only [secondLayerStep_flows_ne, firstLayerStep_flows_ne,
        updE, Prod.mk.injEq, String.reduceEq, ite_false, ite_true, if_neg, if_pos,
        not_false_iff, false_and, and_false]
      rw [(firstLayerStep_safe thr false "SwA1" "SwA2" _ ?hA4 (by decide) (by decide)
        (by decide)).2.1]
      case hA4 => simp [upd]; nlinarith
      simp [upd]

/-- Witness for C9 (amended) at traffic −50 and threshold 10. -/
theorem C9_witness :
    (simulate_nplus1 (-50) "Baseline" 10 0).1.load "Server-1" = -50
    ∧ (simulate_nplus1 (-50) "Baseline" 10 0).1.load "SwA1" = (-50) * (6 / 10)
    ∧ (simulate_nplus1 (-50) "Baseline" 10 0).1.state "SwA1" = "Safe"
    ∧ (simulate_nplus1 (-50) "Baseline" 10 0).1.flows ("SwA1", "SwA2") = (-50) * (6 / 10) :=
  C9_amended (-50) 10 0 (by norm_num) (by norm_num)

/-- A node has at most `|edges|` successors. -/
theorem successors_length_le (edges : List (NodeId × NodeId)) (c : NodeId) :
    (successors edges c).length ≤ edges.length := by
  unfold successors
  rw [List.length_map]
  exact List.length_filter_le _ _

/-- Forwarding to one neighbor leaves the step counter unchanged. -/
theorem forwardTo_steps (c : NodeId) (o : ℚ) (s : GenState) (nbr : NodeId) :
    (forwardTo c o s nbr).steps = s.steps := rfl

/-- Forwarding to one neighbor leaves the iteration counter unchanged. -/
theorem forwardTo_iters (c : NodeId) (o : ℚ) (s : GenState) (nbr : NodeId) :
    (forwardTo c o s nbr).iters = s.iters := rfl

/-- The forwarding loop leaves the step counter unchanged. -/
theorem foldl_forward_steps (c : NodeId) (o : ℚ) :
    ∀ (nbrs : List NodeId) (s : GenState),
      (nbrs.foldl (forwardTo c o) s).steps = s.steps := by
  intro nbrs
  induction nbrs with
  | nil => intro s; rfl
  | cons n ns ih => intro s; rw [List.foldl_cons, ih, forwardTo_steps]

/-- Forwarding to one neighbor grows the queue by at most one. -/
theorem forwardTo_queue_len (c : NodeId) (o : ℚ) (s : GenState) (nbr : NodeId) :
    (forwardTo c o s nbr).queue.length ≤ s.queue.length + 1 := by
  unfold forwardTo
  split_ifs <;> simp

/-- The forwarding loop grows the queue by at most the number of neighbors. -/
theorem foldl_forward_queue_len (c : NodeId) (o : ℚ) :
    ∀ (nbrs : List NodeId) (s : GenState),
      (nbrs.foldl (forwardTo c o) s).queue.length ≤ s.queue.length + nbrs.length := by
  intro nbrs
  induction nbrs with
  | nil => intro s; simp
  | cons n ns ih =>
    intro s
    rw [List.foldl_cons]
    calc (ns.foldl (forwardTo c o) (forwardTo c o s n)).queue.length
        ≤ (forwardTo c o s n).queue.length + ns.length := ih _
      _ ≤ s.queue.length + 1 + ns.length := by
          have := forwardTo_queue_len c o s n; omega
      _ = s.queue.length + (n :: ns).length := by simp [List.length_cons]; omega

/-- An iteration popping a successor-less node does not increment `steps` and
leaves the queue at the remaining `rest` (the `continue` in the source). -/
theorem genericBody_empty_shape (edges : List (NodeId × NodeId)) (thr : ℚ) (rr : Bool)
    (current : NodeId) (rest : List NodeId) (s : GenState)
    (hne : (successors edges current).isEmpty = true) :
    (genericBody edges thr rr current rest s).steps = s.steps
    ∧ (genericBody edges thr rr current rest s).queue = rest := by
  unfold genericBody
  rcases Bool.dichotomy rr with hr | hr <;> subst hr <;>
    by_cases h1 : switchRole current = true <;>
    by_cases h2 : s.load current > thr <;>
    by_cases h3 : pyIn "Storage" current = true <;>
    simp [h1, h2, h3, hne]

/-- An iteration popping a node with successors increments `steps` by one. -/
theorem genericBody_nonempty_steps (edges : List (NodeId × NodeId)) (thr : ℚ) (rr : Bool)
    (current : NodeId) (rest : List NodeId) (s : GenState)
    (hne : ¬ (successors edges current).isEmpty = true) :
    (genericBody edges thr rr current rest s).steps = s.steps + 1 := by
  unfold genericBody
  rcases Bool.dichotomy rr with hr | hr <;> subst hr <;>
    by_cases h1 : switchRole current = true <;>
    by_cases h2 : s.load current > thr <;>
    by_cases h3 : pyIn "Storage" current = true <;>
    simp [h1, h2, h3, hne] <;>
    split_ifs <;>
    simp [foldl_forward_steps]

/-- An iteration popping a node with successors leaves at most
`|rest| + |edges|` queued nodes. -/
theorem genericBody_nonempty_queue (edges : List (NodeId × NodeId)) (thr : ℚ) (rr : Bool)
    (current : NodeId) (rest : List NodeId) (s : GenState)
    (hne : ¬ (successors edges current).isEmpty = true) :
    (genericBody edges thr rr current rest s).queue.length
      ≤ rest.length + edges.length := by
  have hsl := successors_length_le edges current
  unfold genericBody
  rcases Bool.dichotomy rr with hr | hr <;> subst hr <;>
    by_cases h1 : switchRole current = true <;>
    by_cases h2 : s.load current > thr <;>
    by_cases h3 : pyIn "Storage" current = true <;>
    simp [h1, h2, h3, hne] <;>
    (try split_ifs) <;>
    (try refine le_trans (foldl_forward_queue_len _ _ _ _) ?_) <;>
    (try simp) <;>
    omega

/-- Any property preserved by the loop body holds for the loop result. -/
theorem genericLoop_inv (edges : List (NodeId × NodeId)) (thr : ℚ) (rr : Bool)
    (maxs : ℕ) (P : GenState → Prop)
    (hP : ∀ c rest s, P s → P (genericBody edges thr rr c rest s)) :
    ∀ (fuel : ℕ) (s s' : GenState), P s →
      genericLoop edges thr rr maxs fuel s = some s' → P s' := by
  intro fuel
  induction fuel with
  | zero => intro s s' _ h; simp [genericLoop] at h
  | succ n ih =>
    intro s s' hs h
    unfold genericLoop at h
    cases hq : s.queue with
    | nil =>
      simp only [hq, Option.some.injEq] at h
      rw [← h]; exact hs
    | cons c rest =>
      simp only [hq] at h
      by_cases hst : maxs ≤ s.steps
      · rw [if_pos hst] at h; simp at h; rw [← h]; exact hs
      · rw [if_neg hst] at h
        exact ih _ _ (hP c rest s hs) h

/-- The frontier loop reaches its own exit condition within any fuel strictly
above the measure `(max_steps − steps)·(1 + |edges|) + |queue|`. -/
theorem genericLoop_total (edges : List (NodeId × NodeId)) (thr : ℚ) (rr : Bool)
    (maxs : ℕ) :
    ∀ (fuel : ℕ) (s : GenState),
      (maxs - s.steps) * (1 + edges.length) + s.queue.length < fuel →
      (genericLoop edges thr rr maxs fuel s).isSome = true := by
  intro fuel
  induction fuel with
  | zero => intro s h; omega
  | succ n ih =>
    intro s h
    unfold genericLoop
    cases hq : s.queue with
    | nil => simp only [hq]; rfl
    | cons c rest =>
      simp only [hq]
      by_cases hst : maxs ≤ s.steps
      · rw [if_pos hst]; rfl
      · rw [if_neg hst]
        apply ih
        have hqlen : s.queue.length = rest.length + 1 := by rw [hq]; simp
        by_cases hne : (successors edges c).isEmpty = true
        · obtain ⟨he1, he2⟩ := genericBody_empty_shape edges thr rr c rest s hne
          rw [he1, he2]
          omega
        · have he1 := genericBody_nonempty_steps edges thr rr c rest s hne
          have he2 := genericBody_nonempty_queue edges thr rr c rest s hne
          rw [he1]
          have hm : maxs - s.steps = (maxs - (s.steps + 1)) + 1 := by omega
          have hmul : (maxs - s.steps) * (1 + edges.length)
              = (maxs - (s.steps + 1)) * (1 + edges.length) + (1 + edges.length) := by
            rw [hm, Nat.succ_mul]
          omega

/-- A fold whose step appends exactly one queue element and preserves `steps`
and `flows` does so in aggregate. -/
theorem foldl_src_shape (f : GenState → NodeId → GenState)
    (hf : ∀ (s : GenState) (x : NodeId),
      (f s x).queue.length = s.queue.length + 1
      ∧ (f s x).steps = s.steps ∧ (f s x).flows = s.flows) :
    ∀ (srcs : List NodeId) (s : GenState),
      ((srcs.foldl f s).queue.length = s.queue.length + srcs.length)
      ∧ ((srcs.foldl f s).steps = s.steps)
      ∧ ((srcs.foldl f s).flows = s.flows) := by
  intro srcs
  induction srcs with
  | nil => intro s; exact ⟨by simp, rfl, rfl⟩
  | cons x xs ih =>
    intro s
    obtain ⟨q1, q2, q3⟩ := ih (f s x)
    obtain ⟨p1, p2, p3⟩ := hf s x
    refine ⟨?_, ?_, ?_⟩
    · rw [List.foldl_cons, q1, p1]; simp [List.length_cons]; omega
    · rw [List.foldl_cons, q2, p2]
    · rw [List.foldl_cons, q3, p3]

/-- The source-injection fold appends one queue entry per source and keeps
`steps` and `flows`. -/
theorem srcInit_facts (pq : ℚ) (srcs : List NodeId) (s : GenState) :
    ((List.foldl (fun s src =>
        { s with load := upd s.load src pq,
                 state := updS s.state src "Source",
                 queue := s.queue ++ [src] }) s srcs).queue.length
      = s.queue.length + srcs.length)
    ∧ ((List.foldl (fun s src =>
        { s with load := upd s.load src pq,
                 state := updS s.state src "Source",
                 queue := s.queue ++ [src] }) s srcs).steps = s.steps)
    ∧ ((List.foldl (fun s src =>
        { s with load := upd s.load src pq,
                 state := updS s.state src "Source",
                 queue := s.queue ++ [src] }) s srcs).flows = s.flows) :=
  foldl_src_shape
    (fun s src =>
      { s with load := upd s.load src pq,
               state := updS s.state src "Source",
               queue := s.queue ++ [src] })
    (fun _ _ => ⟨by simp, rfl, rfl⟩) srcs s

/-- C10 (amended): the generic propagation loop always terminates, for every
finite topology including cyclic ones — with the fuel `genericFuel` the loop
always reaches its own exit condition (queue empty or `steps = 3·|nodes|`).
The step counter is incremented by at most `3·|nodes|` iterations, but
iterations that pop a successor-less node skip the increment, so the total
number of iterations can exceed `3·|nodes|` (see the counterexample). -/
theorem C10_amended (nodes : List NodeId) (edges : List (NodeId × NodeId))
    (raw thr : ℚ) (scenario : String) (u : ℚ) :
    ((simulate_generic_flow nodes edges raw thr scenario u).1).isSome = true := by
  unfold simulate_generic_flow
  by_cases hs : (nodes.filter (fun n => pyIn "Server" n)).isEmpty = true
  · simp [hs]
  · simp only [hs, if_false, Bool.false_eq_true]
    by_cases hc : scenarioCompression scenario = true <;>
      simp only [hc, if_true, if_false, Bool.false_eq_true, eq_self_iff_true] <;>
    · apply genericLoop_total
      rw [(srcInit_facts _ _ _).1, (srcInit_facts _ _ _).2.1]
      have hfl : (nodes.filter (fun n => pyIn "Server" n)).length ≤ nodes.length :=
        List.length_filter_le _ _
      simp only [genericFuel, Nat.sub_zero, List.length_nil, Nat.zero_add]
      omega

/-- A quantity at most `thr` split over `k ≥ 1` links stays at most `thr`. -/
theorem pass_div_le (pass thr : ℚ) (k : ℕ) (hk : 1 ≤ k) (hp : pass ≤ thr)
    (hthr : 0 < thr) : pass / (k : ℚ) ≤ thr := by
  have hk1 : (1 : ℚ) ≤ (k : ℚ) := by exact_mod_cast hk
  have hk0 : (0 : ℚ) < (k : ℚ) := by linarith
  rcases le_or_lt pass 0 with h0 | h0
  · have : pass / (k : ℚ) ≤ 0 := div_nonpos_iff.mpr (Or.inr ⟨h0, le_of_lt hk0⟩)
    linarith
  · have h1 : pass / (k : ℚ) ≤ pass := div_le_self (le_of_lt h0) hk1
    linarith

/-- The forwarding loop preserves the per-edge flow cap on switch-role nodes,
provided the per-link amount respects the cap when the forwarder is a switch. -/
theorem foldl_forward_flows_le (thr : ℚ) (c : NodeId) (o : ℚ)
    (ho : switchRole c = true → o ≤ thr) :
    ∀ (nbrs : List NodeId) (s : GenState),
      (∀ a b, switchRole a = true → s.flows (a, b) ≤ thr) →
      ∀ a b, switchRole a = true → (nbrs.foldl (forwardTo c o) s).flows (a, b) ≤ thr := by
  intro nbrs
  induction nbrs with
  | nil => intro s hP a b hab; exact hP a b hab
  | cons n ns ih =>
    intro s hP a b hab
    rw [List.foldl_cons]
    refine ih _ ?_ a b hab
    intro x y hxy
    unfold forwardTo updE
    by_cases hk : (x, y) = (c, n)
    · have hxc : x = c := by rw [Prod.mk.injEq] at hk; exact hk.1
      simp only [hk, if_pos rfl]
      exact ho (hxc ▸ hxy)
    · simp only [if_neg hk]
      exact hP x y hxy

set_option maxHeartbeats 1000000 in
/-- One frontier-loop iteration preserves the invariant that every edge out of
a switch-role node carries at most the threshold. -/
theorem genericBody_flows_le (edges : List (NodeId × NodeId)) (thr : ℚ) (rr : Bool)
    (c : NodeId) (rest : List NodeId) (s : GenState) (hthr : 0 < thr)
    (hP : ∀ a b, switchRole a = true → s.flows (a, b) ≤ thr) :
    ∀ a b, switchRole a = true →
      (genericBody edges thr rr c rest s).flows (a, b) ≤ thr := by
  intro a b hab
  unfold genericBody
  rcases Bool.dichotomy rr with hr | hr <;> subst hr <;>
    by_cases h1 : switchRole c = true <;>
    by_cases h2 : s.load c > thr <;>
    by_cases h3 : pyIn "Storage" c = true <;>
    simp only [h1, h2, h3, if_true, if_false, ite_true, ite_false, Bool.false_eq_true,
      not_false_iff] <;>
    split_ifs with hne2 hp <;>
    first
      | exact hP a b hab
      | linarith
      | (have hk : 1 ≤ (successors edges c).length := by
           rcases List.isEmpty_iff.not.mp hne2 with hnil
           exact List.length_pos.mpr (by simpa using hnil)
         refine foldl_forward_flows_le thr c _ (fun hcr => ?_) _ _ ?_ a b hab
         · first
             | exact absurd hcr h1
             | exact pass_div_le _ thr _ hk (by linarith) hthr
         · intro x y hxy
           exact hP x y hxy)

/-- C3 (amended): for every positive threshold, the flow placed on a first-layer
switch's primary edge in the N+1 engine never exceeds the threshold (it is the
load, `threshold·0.95`, or 0), and in the generic engine no edge out of a
switch-role node ever carries more than the threshold.  The original claim
fails for the N+1 standby edge and the standby node's own output, which are
uncapped (see the counterexample). -/
theorem C3_amended (thr : ℚ) (hthr : 0 < thr) :
    (∀ (raw : ℚ) (scenario : String) (u : ℚ),
        (simulate_nplus1 raw scenario thr u).1.flows ("SwA1", "SwA2") ≤ thr
      ∧ (simulate_nplus1 raw scenario thr u).1.flows ("SwB1", "SwB2") ≤ thr)
    ∧ (∀ (nodes : List NodeId) (edges : List (NodeId × NodeId)) (raw : ℚ)
        (scenario : String) (u : ℚ) (s : GenState),
        (simulate_generic_flow nodes edges raw thr scenario u).1 = some s →
        ∀ a b, switchRole a = true → s.flows (a, b) ≤ thr) := by
  constructor
  · intro raw scenario u
    constructor
    · simp only [simulate_nplus1]
      split_ifs <;>
        simp (disch := decide) [secondLayerStep_flows_ne, firstLayerStep_flows_ne, updE] <;>
        exact firstLayerStep_main_le thr _ "SwA1" "SwA2" _ hthr (by decide)
    · simp only [simulate_nplus1]
      split_ifs <;>
        simp (disch := decide) [secondLayerStep_flows_ne, firstLayerStep_flows_ne, updE] <;>
        exact firstLayerStep_main_le thr _ "SwB1" "SwB2" _ hthr (by decide)
  · intro nodes edges raw scenario u s hres a b hab
    revert hres
    unfold simulate_generic_flow
    by_cases hs : (nodes.filter (fun n => pyIn "Server" n)).isEmpty = true
    · simp only [hs, if_true]
      intro hres
      simp only [Option.some.injEq] at hres
      rw [← hres]
      exact le_of_lt hthr
    · simp only [hs, if_false, Bool.false_eq_true]
      by_cases hc : scenarioCompression scenario = true <;>
        simp only [hc, if_true, if_false, Bool.false_eq_true, eq_self_iff_true] <;>
      · intro hres
        exact genericLoop_inv edges thr _ _
          (fun st => ∀ x y, switchRole x = true → st.flows (x, y) ≤ thr)
          (fun cc rr2 st hst => genericBody_flows_le edges thr _ cc rr2 st hthr hst)
          _ _ _
          (fun x y _ => by rw [(srcInit_facts _ _ _).2.2]; exact le_of_lt hthr)
          hres a b hab

/-- Witness for C3 (amended): threshold 1200 on a rerouted N+1 run and on the
Ring topology generic run. -/
theorem C3_witness :
    ((simulate_nplus1 10000 "Dynamic Rerouting" 1200 0).1.flows ("SwA1", "SwA2") ≤ 1200
      ∧ (simulate_nplus1 10000 "Dynamic Rerouting" 1200 0).1.flows ("SwB1", "SwB2") ≤ 1200)
    ∧ Option.elim ((simulate_generic_flow ringNodes ringEdges 1000 1200 "Baseline" 0).1)
        True (fun s => s.flows ("Sw1", "Sw2") ≤ 1200) := by
  constructor
  · exact (C3_amended 1200 (by norm_num)).1 10000 "Dynamic Rerouting" 0
  · cases h : (simulate_generic_flow ringNodes ringEdges 1000 1200 "Baseline" 0).1 with
    | none => exact trivial
    | some s =>
      exact (C3_amended 1200 (by norm_num)).2 ringNodes ringEdges 1000 "Baseline" 0 s h
        "Sw1" "Sw2" (by decide)

theorem firstLayerStep_state_self (thr : ℚ) (rr : Bool) (sw target : NodeId)
    (s : NPState) (hsw : sw ≠ "Sw-Standby") :
    (firstLayerStep thr rr sw target s).state sw
      = if s.load sw > thr then (if rr = true then "Rerouted" else "Failure")
        else "Safe" := by
  unfold firstLayerStep
  rcases Bool.dichotomy rr with hr | hr <;> subst hr <;>
    by_cases hl : s.load sw > thr <;>
      simp only [hl, if_true, if_false, ite_true, ite_false, Bool.false_eq_true,
        if_pos, if_neg, not_false_iff] <;>
    split_ifs <;>
    simp [updS, hsw, Ne.symm hsw]

theorem secondLayerStep_state_self (thr : ℚ) (sw : NodeId) (s : NPState) :
    (secondLayerStep thr sw s).state sw
      = if s.load sw > 0 then (if s.load sw > thr then "Overload" else "Safe")
        else s.state sw := by
  unfold secondLayerStep
  by_cases h0 : s.load sw > 0 <;> by_cases h1 : s.load sw > thr <;>
    simp [h0, h1, updS]

theorem outSum_SwA1 (flows : NodeId × NodeId → ℚ) :
    outSum flows nplusEdges "SwA1"
      = flows ("SwA1", "SwA2") + (flows ("SwA1", "Sw-Standby") + 0) := by
  simp [outSum, nplusEdges]

theorem outSum_SwB1 (flows : NodeId × NodeId → ℚ) :
    outSum flows nplusEdges "SwB1"
      = flows ("SwB1", "SwB2") + (flows ("SwB1", "Sw-Standby") + 0) := by
  simp [outSum, nplusEdges]

theorem outSum_SwA2 (flows : NodeId × NodeId → ℚ) :
    outSum flows nplusEdges "SwA2" = flows ("SwA2", "Storage-1") + 0 := by
  simp [outSum, nplusEdges]

theorem outSum_SwB2 (flows : NodeId × NodeId → ℚ) :
    outSum flows nplusEdges "SwB2" = flows ("SwB2", "Storage-1") + 0 := by
  simp [outSum, nplusEdges]

theorem upd_ne (f : NodeId → ℚ) (k : NodeId) (v : ℚ) (n : NodeId) (h : n ≠ k) :
    upd f k v n = f n := by
  unfold upd; exact if_neg h

theorem updS_ne (f : NodeId → String) (k : NodeId) (v : String) (n : NodeId)
    (h : n ≠ k) : updS f k v n = f n := by
  unfold updS; exact if_neg h

theorem updE_ne (f : NodeId × NodeId → ℚ) (k : NodeId × NodeId) (v : ℚ)
    (e : NodeId × NodeId) (h : e ≠ k) : updE f k v e = f e := by
  unfold updE; exact if_neg h

theorem upd_eq (f : NodeId → ℚ) (k : NodeId) (v : ℚ) : upd f k v k = v := by
  unfold upd; simp

theorem updS_eq (f : NodeId → String) (k : NodeId) (v : String) : updS f k v k = v := by
  unfold updS; simp

theorem updE_eq (f : NodeId × NodeId → ℚ) (k : NodeId × NodeId) (v : ℚ) :
    updE f k v k = v := by
  unfold updE; simp

theorem c4aux_SwA1 (raw : ℚ) (scenario : String) (thr u : ℚ) :
    ((simulate_nplus1 raw scenario thr u).1.state "SwA1" = "Safe" →
      outSum (simulate_nplus1 raw scenario thr u).1.flows nplusEdges "SwA1"
        = (simulate_nplus1 raw scenario thr u).1.load "SwA1")
    ∧ ((simulate_nplus1 raw scenario thr u).1.state "SwA1" = "Failure"
        ∨ (simulate_nplus1 raw scenario thr u).1.state "SwA1" = "Overload" →
      outSum (simulate_nplus1 raw scenario thr u).1.flows nplusEdges "SwA1" = 0) := by
  simp only [outSum_SwA1]
  constructor
  · intro hsafe
    simp only [simulate_nplus1] at hsafe ⊢
    split_ifs at hsafe ⊢ with hcomp hsb <;>
    · simp (disch := decide) only [secondLayerStep_state_ne, firstLayerStep_state_ne,
        updS_ne] at hsafe
      rw [firstLayerStep_state_self thr _ "SwA1" "SwA2" _ (by decide)] at hsafe
      split_ifs at hsafe with hl hrr
      · exact absurd hsafe (by decide)
      · exact absurd hsafe (by decide)
      · simp (disch := decide) only [secondLayerStep_flows_ne, firstLayerStep_flows_ne,
          secondLayerStep_load_ne, firstLayerStep_load_ne, upd_ne, updE_ne]
        rw [(firstLayerStep_safe thr _ "SwA1" "SwA2" _ hl (by decide) (by decide)
              (by decide)).2.1,
            (firstLayerStep_safe thr _ "SwA1" "SwA2" _ hl (by decide) (by decide)
              (by decide)).2.2.1]
        try simp (disch := decide) only [updE_ne]
        simp (disch := decide) [firstLayerStep_load_ne, firstLayerStep_flows_ne, upd, updE]
  · intro hfail
    rcases hfail with hf | hf <;>
    · simp only [simulate_nplus1] at hf ⊢
      split_ifs at hf ⊢ with hcomp hsb <;>
      · simp (disch := decide) only [secondLayerStep_state_ne, firstLayerStep_state_ne,
          updS_ne] at hf
        rw [firstLayerStep_state_self thr _ "SwA1" "SwA2" _ (by decide)] at hf
        split_ifs at hf with hl hrr
        · exact absurd hf (by decide)
        · first
            | exact absurd hf (by decide)
            | (rw [Bool.not_eq_true] at hrr
               simp (disch := decide) only [secondLayerStep_flows_ne,
                 firstLayerStep_flows_ne, upd_ne, updE_ne, hrr]
               rw [(firstLayerStep_fail thr "SwA1" "SwA2" _ hl (by decide) (by decide)
                     (by decide)).2.1,
                   (firstLayerStep_fail thr "SwA1" "SwA2" _ hl (by decide) (by decide)
                     (by decide)).2.2.1]
               try simp (disch := decide) only [updE_ne]
               simp (disch := decide) [firstLayerStep_load_ne, firstLayerStep_flows_ne, upd,
                 updE])
        · exact absurd hf (by decide)

theorem firstLayerStep_state_standby_eq (thr : ℚ) (rr : Bool) (sw target : NodeId)
    (s : NPState) (hsw : sw ≠ "Sw-Standby") (x : String)
    (h : (firstLayerStep thr rr sw target s).state "Sw-Standby" = x) :
    s.state "Sw-Standby" = x ∨ x = "Active" := by
  rcases firstLayerStep_state_standby thr rr sw target s hsw with he | he
  · left; rw [← he]; exact h
  · right; rw [he] at h; exact h.symm

theorem c4aux_SwB1 (raw : ℚ) (scenario : String) (thr u : ℚ) :
    ((simulate_nplus1 raw scenario thr u).1.state "SwB1" = "Safe" →
      outSum (simulate_nplus1 raw scenario thr u).1.flows nplusEdges "SwB1"
        = (simulate_nplus1 raw scenario thr u).1.load "SwB1")
    ∧ ((simulate_nplus1 raw scenario thr u).1.state "SwB1" = "Failure"
        ∨ (simulate_nplus1 raw scenario thr u).1.state "SwB1" = "Overload" →
      outSum (simulate_nplus1 raw scenario thr u).1.flows nplusEdges "SwB1" = 0) := by
  simp only [outSum_SwB1]
  constructor
  · intro hsafe
    simp only [simulate_nplus1] at hsafe ⊢
    split_ifs at hsafe ⊢ with hcomp hsb <;>
    · simp (disch := decide) only [secondLayerStep_state_ne, firstLayerStep_state_ne,
        updS_ne] at hsafe
      rw [firstLayerStep_state_self thr _ "SwB1" "SwB2" _ (by decide)] at hsafe
      split_ifs at hsafe with hl hrr
      · exact absurd hsafe (by decide)
      · exact absurd hsafe (by decide)
      · simp (disch := decide) only [secondLayerStep_flows_ne, firstLayerStep_flows_ne,
          secondLayerStep_load_ne, firstLayerStep_load_ne, upd_ne, updE_ne]
        rw [(firstLayerStep_safe thr _ "SwB1" "SwB2" _ hl (by decide) (by decide)
              (by decide)).2.1,
            (firstLayerStep_safe thr _ "SwB1" "SwB2" _ hl (by decide) (by decide)
              (by decide)).2.2.1]
        try simp (disch := decide) only [updE_ne]
        simp (disch := decide) [firstLayerStep_load_ne, firstLayerStep_flows_ne, upd, updE]
  · intro hfail
    rcases hfail with hf | hf <;>
    · simp only [simulate_nplus1] at hf ⊢
      split_ifs at hf ⊢ with hcomp hsb <;>
      · simp (disch := decide) only [secondLayerStep_state_ne, firstLayerStep_state_ne,
          updS_ne] at hf
        rw [firstLayerStep_state_self thr _ "SwB1" "SwB2" _ (by decide)] at hf
        split_ifs at hf with hl hrr
        · exact absurd hf (by decide)
        · first
            | exact absurd hf (by decide)
            | (rw [Bool.not_eq_true] at hrr
               simp only [hrr] at hl
               simp (disch := decide) only [secondLayerStep_flows_ne,
                 firstLayerStep_flows_ne, upd_ne, updE_ne, hrr]
               rw [(firstLayerStep_fail thr "SwB1" "SwB2" _ hl (by decide) (by decide)
                     (by decide)).2.1,
                   (firstLayerStep_fail thr "SwB1" "SwB2" _ hl (by decide) (by decide)
                     (by decide)).2.2.1]
               try simp (disch := decide) only [updE_ne]
               simp (disch := decide) [firstLayerStep_load_ne, firstLayerStep_flows_ne, upd,
                 updE])
        · exact absurd hf (by decide)

theorem c4aux_SwA2 (raw : ℚ) (scenario : String) (thr u : ℚ) :
    ((simulate_nplus1 raw scenario thr u).1.state "SwA2" = "Safe" →
      outSum (simulate_nplus1 raw scenario thr u).1.flows nplusEdges "SwA2"
        = (simulate_nplus1 raw scenario thr u).1.load "SwA2")
    ∧ ((simulate_nplus1 raw scenario thr u).1.state "SwA2" = "Failure"
        ∨ (simulate_nplus1 raw scenario thr u).1.state "SwA2" = "Overload" →
      outSum (simulate_nplus1 raw scenario thr u).1.flows nplusEdges "SwA2" = 0) := by
  simp only [outSum_SwA2]
  constructor
  · intro hsafe
    simp only [simulate_nplus1] at hsafe ⊢
    split_ifs at hsafe ⊢ with hcomp hsb <;>
    · simp (disch := decide) only [secondLayerStep_state_ne, updS_ne] at hsafe
      rw [secondLayerStep_state_self] at hsafe
      split_ifs at hsafe with h0 h1
      · exact absurd hsafe (by decide)
      · simp (disch := decide) only [secondLayerStep_flows_ne,
          secondLayerStep_load_ne, upd_ne, updE_ne]
        rw [(secondLayerStep_safe thr "SwA2" _ h0 h1 (by decide)).2.1]
        simp (disch := decide) [secondLayerStep_load_ne, firstLayerStep_load_ne, upd, updE]
      · simp (disch := decide) [firstLayerStep_state_ne, updS_ne] at hsafe
  · intro hfail
    rcases hfail with hf | hf <;>
    · simp only [simulate_nplus1] at hf ⊢
      split_ifs at hf ⊢ with hcomp hsb <;>
      · simp (disch := decide) only [secondLayerStep_state_ne, updS_ne] at hf
        rw [secondLayerStep_state_self] at hf
        split_ifs at hf with h0 h1
        · first
            | exact absurd hf (by decide)
            | (simp (disch := decide) only [secondLayerStep_flows_ne, upd_ne, updE_ne]
               rw [(secondLayerStep_over thr "SwA2" _ h0 h1 (by decide)).2.1]
               simp)
        · exact absurd hf (by decide)
        · simp (disch := decide) [firstLayerStep_state_ne, updS_ne] at hf

theorem c4aux_SwB2 (raw : ℚ) (scenario : String) (thr u : ℚ) :
    ((simulate_nplus1 raw scenario thr u).1.state "SwB2" = "Safe" →
      outSum (simulate_nplus1 raw scenario thr u).1.flows nplusEdges "SwB2"
        = (simulate_nplus1 raw scenario thr u).1.load "SwB2")
    ∧ ((simulate_nplus1 raw scenario thr u).1.state "SwB2" = "Failure"
        ∨ (simulate_nplus1 raw scenario thr u).1.state "SwB2" = "Overload" →
      outSum (simulate_nplus1 raw scenario thr u).1.flows nplusEdges "SwB2" = 0) := by
  simp only [outSum_SwB2]
  constructor
  · intro hsafe
    simp only [simulate_nplus1] at hsafe ⊢
    split_ifs at hsafe ⊢ with hcomp hsb <;>
    · simp (disch := decide) only [secondLayerStep_state_ne, updS_ne] at hsafe
      rw [secondLayerStep_state_self] at hsafe
      split_ifs at hsafe with h0 h1
      · exact absurd hsafe (by decide)
      · simp (disch := decide) only [secondLayerStep_flows_ne,
          secondLayerStep_load_ne, upd_ne, updE_ne]
        rw [(secondLayerStep_safe thr "SwB2" _ h0 h1 (by decide)).2.1]
        simp (disch := decide) [secondLayerStep_load_ne, firstLayerStep_load_ne, upd, updE]
      · simp (disch := decide) [secondLayerStep_state_ne, firstLayerStep_state_ne,
          updS_ne] at hsafe
  · intro hfail
    rcases hfail with hf | hf <;>
    · simp only [simulate_nplus1] at hf ⊢
      split_ifs at hf ⊢ with hcomp hsb <;>
      · simp (disch := decide) only [secondLayerStep_state_ne, updS_ne] at hf
        rw [secondLayerStep_state_self] at hf
        split_ifs at hf with h0 h1
        · first
            | exact absurd hf (by decide)
            | (simp (disch := decide) only [secondLayerStep_flows_ne, upd_ne, updE_ne]
               rw [(secondLayerStep_over thr "SwB2" _ h0 h1 (by decide)).2.1]
               simp)
        · exact absurd hf (by decide)
        · simp (disch := decide) [secondLayerStep_state_ne, firstLayerStep_state_ne,
            updS_ne] at hf

theorem c4_standby_state (raw : ℚ) (scenario : String) (thr u : ℚ) (x : String)
    (h : (simulate_nplus1 raw scenario thr u).1.state "Sw-Standby" = x) :
    x = "Idle" ∨ x = "Active" := by
  simp only [simulate_nplus1] at h
  split_ifs at h with hcomp hsb <;>
  · simp (disch := decide) only [secondLayerStep_state_ne, updS_ne] at h
    rcases firstLayerStep_state_standby_eq thr _ "SwB1" "SwB2" _ (by decide) _ h with h1 | h1
    · rcases firstLayerStep_state_standby_eq thr _ "SwA1" "SwA2" _ (by decide) _ h1 with h2 | h2
      · left
        simp (disch := decide) only [updS_ne] at h2
        exact h2.symm
      · right; exact h2
    · right; exact h1

theorem c4_state_server (raw : ℚ) (scenario : String) (thr u : ℚ) :
    (simulate_nplus1 raw scenario thr u).1.state "Server-1" = "OK" := by
  simp only [simulate_nplus1]
  split_ifs with hcomp hsb <;>
    simp (disch := decide) only [secondLayerStep_state_ne, firstLayerStep_state_ne,
      updS_ne, updS_eq]

theorem c4_state_storage (raw : ℚ) (scenario : String) (thr u : ℚ) :
    (simulate_nplus1 raw scenario thr u).1.state "Storage-1" = "Online" := by
  simp only [simulate_nplus1]
  split_ifs with hcomp hsb <;> simp only [updS_eq]

theorem c4_state_other (raw : ℚ) (scenario : String) (thr u : ℚ) (n : NodeId)
    (h1 : n ≠ "Server-1") (h2 : n ≠ "SwA1") (h3 : n ≠ "SwB1") (h4 : n ≠ "Sw-Standby")
    (h5 : n ≠ "SwA2") (h6 : n ≠ "SwB2") (h7 : n ≠ "Storage-1") :
    (simulate_nplus1 raw scenario thr u).1.state n = "Idle" := by
  simp only [simulate_nplus1]
  split_ifs with hcomp hsb <;>
    simp (disch := assumption) only [secondLayerStep_state_ne, firstLayerStep_state_ne,
      updS_ne]

/-- C4 (amended): flow conservation in the N+1 simulation holds in the corrected
form: for every node n, if its final state is "Safe" then the sum of its outgoing
edge flows equals its load, and if its final state is "Failure" or "Overload" then
the sum of its outgoing edge flows is 0 (the claim's `load ≤ threshold` guard is
replaced by the state actually computed, and rerouted/standby/source/sink nodes
are excluded as in the code). -/
theorem C4_amended (raw : ℚ) (scenario : String) (thr u : ℚ) (n : NodeId) :
    ((simulate_nplus1 raw scenario thr u).1.state n = "Safe" →
      outSum (simulate_nplus1 raw scenario thr u).1.flows nplusEdges n
        = (simulate_nplus1 raw scenario thr u).1.load n)
    ∧ ((simulate_nplus1 raw scenario thr u).1.state n = "Failure"
        ∨ (simulate_nplus1 raw scenario thr u).1.state n = "Overload" →
      outSum (simulate_nplus1 raw scenario thr u).1.flows nplusEdges n = 0) := by
  by_cases hn1 : n = "SwA1"
  · subst hn1; exact c4aux_SwA1 raw scenario thr u
  by_cases hn2 : n = "SwB1"
  · subst hn2; exact c4aux_SwB1 raw scenario thr u
  by_cases hn3 : n = "SwA2"
  · subst hn3; exact c4aux_SwA2 raw scenario thr u
  by_cases hn4 : n = "SwB2"
  · subst hn4; exact c4aux_SwB2 raw scenario thr u
  by_cases hn5 : n = "Sw-Standby"
  · subst hn5
    constructor
    · intro h
      rcases c4_standby_state raw scenario thr u _ h with hx | hx <;>
        exact absurd hx (by decide)
    · intro h
      rcases h with h | h <;>
        (rcases c4_standby_state raw scenario thr u _ h with hx | hx <;>
          exact absurd hx (by decide))
  by_cases hn6 : n = "Server-1"
  · subst hn6
    constructor
    · intro h
      rw [c4_state_server raw scenario thr u] at h
      exact absurd h (by decide)
    · intro h
      rcases h with h | h <;>
        (rw [c4_state_server raw scenario thr u] at h; exact absurd h (by decide))
  by_cases hn7 : n = "Storage-1"
  · subst hn7
    constructor
    · intro h
      rw [c4_state_storage raw scenario thr u] at h
      exact absurd h (by decide)
    · intro h
      rcases h with h | h <;>
        (rw [c4_state_storage raw scenario thr u] at h; exact absurd h (by decide))
  · constructor
    · intro h
      rw [c4_state_other raw scenario thr u n hn6 hn1 hn2 hn5 hn3 hn4 hn7] at h
      exact absurd h (by decide)
    · intro h
      rcases h with h | h <;>
        (rw [c4_state_other raw scenario thr u n hn6 hn1 hn2 hn5 hn3 hn4 hn7] at h
         exact absurd h (by decide))

/-- C4 witness: at raw traffic 1800, Baseline, threshold 1000, SwB1 ends "Safe"
and conserves flow, while SwA1 ends "Failure" and forwards 0. -/
theorem C4_witness :
    (outSum (simulate_nplus1 1800 "Baseline" 1000 0).1.flows nplusEdges "SwB1"
      = (simulate_nplus1 1800 "Baseline" 1000 0).1.load "SwB1")
    ∧ (outSum (simulate_nplus1 1800 "Baseline" 1000 0).1.flows nplusEdges "SwA1" = 0) :=
  ⟨(C4_amended 1800 "Baseline" 1000 0 "SwB1").1 (by decide),
   (C4_amended 1800 "Baseline" 1000 0 "SwA1").2 (Or.inl (by decide))⟩

theorem mem_successors_isEdge (edges : List (NodeId × NodeId)) (c v : NodeId)
    (h : v ∈ successors edges c) : isEdge edges c v = true := by
  unfold successors at h
  rcases List.mem_map.mp h with ⟨e, he, hev⟩
  rcases List.mem_filter.mp he with ⟨hmem, hfst⟩
  have h1 : e.1 = c := by simpa using hfst
  have h2 : (c, v) = e := by
    cases e
    simp only [Prod.mk.injEq]
    exact ⟨h1.symm, hev.symm⟩
  simp only [isEdge, List.contains, List.elem_iff]
  exact h2 ▸ hmem

theorem chainB_tail (edges : List (NodeId × NodeId)) (a : NodeId) (l : List NodeId)
    (h : chainB edges (a :: l) = true) : chainB edges l = true := by
  cases l with
  | nil => rfl
  | cons b rest =>
    simp only [chainB, Bool.and_eq_true] at h
    exact h.2

theorem chainB_suffix (edges : List (NodeId × NodeId)) (m : List NodeId) :
    ∀ l, l <:+ m → chainB edges m = true → chainB edges l = true := by
  induction m with
  | nil =>
    intro l hs _
    rw [List.suffix_nil.mp hs]
    rfl
  | cons a m ih =>
    intro l hs hm
    rcases List.suffix_cons_iff.mp hs with h | h
    · rw [h]; exact hm
    · exact ih l h (chainB_tail edges a m hm)

theorem getLast_suffix_eq (l m : List NodeId) (hs : l <:+ m) (hl : l ≠ []) :
    m.getLast? = l.getLast? := by
  rcases hs with ⟨pre, rfl⟩
  induction pre with
  | nil => rfl
  | cons a pre ih =>
    rw [List.cons_append]
    cases hpl : pre ++ l with
    | nil => exact absurd (List.append_eq_nil.mp hpl).2 hl
    | cons x xs =>
      rw [List.getLast?_cons_cons, ← hpl]
      exact ih

theorem allPathsAux_sound (edges : List (NodeId × NodeId)) (d : NodeId) :
    ∀ (fuel : ℕ) (visited : List NodeId) (c : NodeId) (p : List NodeId),
      p ∈ allPathsAux edges d fuel visited c →
      p.head? = some c ∧ p.getLast? = some d ∧ chainB edges p = true := by
  intro fuel
  induction fuel with
  | zero =>
    intro visited c p hp
    simp [allPathsAux] at hp
  | succ fuel ih =>
    intro visited c p hp
    rw [allPathsAux] at hp
    by_cases hcd : (c == d) = true
    · rw [if_pos hcd] at hp
      have hp1 : p = [d] := by simpa using hp
      have hcd2 : c = d := by simpa using hcd
      subst hp1
      subst hcd2
      exact ⟨rfl, rfl, rfl⟩
    · rw [if_neg hcd] at hp
      rcases List.mem_flatMap.mp hp with ⟨nxt, hnxt, hp2⟩
      by_cases hv : (visited.contains nxt) = true
      · rw [if_pos hv] at hp2
        simp at hp2
      · rw [if_neg hv] at hp2
        rcases List.mem_map.mp hp2 with ⟨q, hq, rfl⟩
        rcases ih (c :: visited) nxt q hq with ⟨hh, hl, hc⟩
        cases q with
        | nil => exact absurd hh (by simp)
        | cons r rest =>
          have hr : r = nxt := by simpa using hh
          subst hr
          refine ⟨rfl, ?_, ?_⟩
          · rw [List.getLast?_cons_cons]
            exact hl
          · simp only [chainB, Bool.and_eq_true]
            exact ⟨mem_successors_isEdge edges c r hnxt, hc⟩

theorem dijkstra_fold_mem (w : NodeId × NodeId → WithTop ℚ) :
    ∀ (l : List (List NodeId)) (acc : Option (List NodeId)) (p : List NodeId),
      l.foldl (fun best q =>
        match best with
        | none => some q
        | some r => if pathWeight w q ≤ pathWeight w r then some q else some r) acc = some p →
      p ∈ l ∨ acc = some p := by
  intro l
  induction l with
  | nil =>
    intro acc p h
    exact Or.inr h
  | cons q l ih =>
    intro acc p h
    rw [List.foldl_cons] at h
    rcases ih _ p h with hm | hacc
    · exact Or.inl (List.mem_cons_of_mem _ hm)
    · cases acc with
      | none =>
        have hq : q = p := by simpa using hacc
        exact Or.inl (hq ▸ List.mem_cons_self q l)
      | some r =>
        by_cases hw : pathWeight w q ≤ pathWeight w r
        · rw [show ((match (some r : Option (List NodeId)) with
              | none => some q
              | some r => if pathWeight w q ≤ pathWeight w r then some q else some r))
              = if pathWeight w q ≤ pathWeight w r then some q else some r from rfl,
            if_pos hw] at hacc
          have hq : q = p := by simpa using hacc
          exact Or.inl (hq ▸ List.mem_cons_self q l)
        · rw [show ((match (some r : Option (List NodeId)) with
              | none => some q
              | some r => if pathWeight w q ≤ pathWeight w r then some q else some r))
              = if pathWeight w q ≤ pathWeight w r then some q else some r from rfl,
            if_neg hw] at hacc
          exact Or.inr hacc

theorem dijkstraModel_sound (edges : List (NodeId × NodeId))
    (w : NodeId × NodeId → WithTop ℚ) (N : ℕ) (s d : NodeId) (p : List NodeId)
    (h : dijkstraModel edges w N s d = some p) :
    p.head? = some s ∧ p.getLast? = some d ∧ chainB edges p = true := by
  unfold dijkstraModel at h
  rcases dijkstra_fold_mem w _ none p h with hm | hacc
  · exact allPathsAux_sound edges d (N + 1) [] s p hm
  · exact absurd hacc (by simp)

theorem applyPath_ne (switches : NodeId → SwView) (dest : NodeId) :
    ∀ (path : List NodeId) (fib : NodeId → NodeId → Option NodeId) (s d : NodeId),
      applyPath switches dest path fib s d ≠ fib s d →
      d = dest ∧ ∃ b rest, (s :: b :: rest) <:+ path := by
  intro path
  induction path with
  | nil =>
    intro fib s d h
    exact absurd rfl h
  | cons a tail ih =>
    cases tail with
    | nil =>
      intro fib s d h
      exact absurd rfl h
    | cons b rest =>
      intro fib s d h
      rw [applyPath] at h
      by_cases hrec : applyPath switches dest (b :: rest)
          (if (switches a).is_failed = true then fib
           else fun u v => if u = a ∧ v = dest then some b else fib u v) s d
        = (if (switches a).is_failed = true then fib
           else fun u v => if u = a ∧ v = dest then some b else fib u v) s d
      · rw [hrec] at h
        by_cases hfa : (switches a).is_failed = true
        · rw [if_pos hfa] at h
          exact absurd rfl h
        · rw [if_neg hfa] at h
          by_cases had : s = a ∧ d = dest
          · refine ⟨had.2, b, rest, ?_⟩
            rw [had.1]
          · rw [if_neg had] at h
            exact absurd rfl h
      · rcases ih _ s d hrec with ⟨hd, b2, rest2, hsuf⟩
        exact ⟨hd, b2, rest2, List.suffix_cons_iff.mpr (Or.inr hsuf)⟩

theorem update_fold_unchanged (edges : List (NodeId × NodeId))
    (switches : NodeId → SwView) (N : ℕ) (s d : NodeId)
    (hnp : ∀ p : List NodeId,
      ¬(p.head? = some s ∧ p.getLast? = some d ∧ chainB edges p = true)) :
    ∀ (l : List (NodeId × NodeId)) (fib : NodeId → NodeId → Option NodeId),
      l.foldl (fun fib sd =>
        match dijkstraModel edges (edgeWeight switches) N sd.1 sd.2 with
        | none => fib
        | some path => applyPath switches sd.2 path fib) fib s d = fib s d := by
  intro l
  induction l with
  | nil =>
    intro fib
    rfl
  | cons sd l ih =>
    intro fib
    rw [List.foldl_cons, ih]
    cases hdm : dijkstraModel edges (edgeWeight switches) N sd.1 sd.2 with
    | none => simp only [hdm]
    | some path =>
      simp only [hdm]
      by_contra hne
      rcases applyPath_ne switches sd.2 path fib s d hne with ⟨hd, b, rest, hsuf⟩
      rcases dijkstraModel_sound edges (edgeWeight switches) N sd.1 sd.2 path hdm
        with ⟨_, hl, hc⟩
      apply hnp (s :: b :: rest)
      refine ⟨rfl, ?_, chainB_suffix edges path _ hsuf hc⟩
      rw [← getLast_suffix_eq (s :: b :: rest) path hsuf (by simp), hl, hd]

/-- C8 (amended): after a routing-controller recompute with a failed switch f,
every edge terminating at f has weight ⊤ (the float infinity), every edge to a
non-failed switch has weight 1 + currentLoad of the destination, and
source/destination pairs with no path in the graph are skipped silently — their
FIB entries are left unchanged.  (The claim's further assertion that no FIB
entry names the failed node as next hop is refuted separately: infinite-weight
paths are still returned by the shortest-path search.) -/
theorem C8_amended (nodes : List NodeId) (edges : List (NodeId × NodeId))
    (switches : NodeId → SwView) (fib0 : NodeId → NodeId → Option NodeId)
    (f : NodeId) (hf : (switches f).is_failed = true) :
    (∀ e : NodeId × NodeId, e.2 = f → edgeWeight switches e = ⊤)
    ∧ (∀ e : NodeId × NodeId, (switches e.2).is_failed = false →
        edgeWeight switches e = ((1 + (switches e.2).current_load : ℚ) : WithTop ℚ))
    ∧ (∀ s d : NodeId,
        (¬ ∃ p : List NodeId,
          p.head? = some s ∧ p.getLast? = some d ∧ chainB edges p = true) →
        update_all_fibs nodes edges switches fib0 s d = fib0 s d) := by
  refine ⟨?_, ?_, ?_⟩
  · intro e he
    simp [edgeWeight, he, hf]
  · intro e he
    simp [edgeWeight, he]
  · intro s d hnp
    exact update_fold_unchanged edges switches nodes.length s d
      (fun p hp => hnp ⟨p, hp⟩) (nodePairs nodes) fib0

/-- C8 witness: in the two-switch graph with edge SW1 → SW2 and SW2 failed, the
edge into SW2 gets weight ⊤, the (absent) reverse edge would be weighted
1 + load(SW1), and the pair (SW2, SW1), which has no path, keeps its original
(empty) FIB entry. -/
theorem C8_witness :
    ((twoNodeFailedView "SW2").is_failed = true)
    ∧ (edgeWeight twoNodeFailedView ("SW1", "SW2") = ⊤)
    ∧ (edgeWeight twoNodeFailedView ("SW2", "SW1")
        = ((1 + (twoNodeFailedView "SW1").current_load : ℚ) : WithTop ℚ))
    ∧ (update_all_fibs ["SW1", "SW2"] [("SW1", "SW2")] twoNodeFailedView
        (fun _ _ => none) "SW2" "SW1" = none) := by
  refine ⟨by decide, ?_, ?_, ?_⟩
  · exact (C8_amended ["SW1", "SW2"] [("SW1", "SW2")] twoNodeFailedView
      (fun _ _ => none) "SW2" (by decide)).1 ("SW1", "SW2") rfl
  · exact (C8_amended ["SW1", "SW2"] [("SW1", "SW2")] twoNodeFailedView
      (fun _ _ => none) "SW2" (by decide)).2.1 ("SW2", "SW1") (by decide)
  · refine (C8_amended ["SW1", "SW2"] [("SW1", "SW2")] twoNodeFailedView
      (fun _ _ => none) "SW2" (by decide)).2.2 "SW2" "SW1" ?_
    rintro ⟨p, h1, h2, h3⟩
    cases p with
    | nil => exact Option.noConfusion h1
    | cons x tail =>
      have hx : x = "SW2" := by simpa using h1
      subst hx
      cases tail with
      | nil =>
        have h4 : ("SW2" : String) = "SW1" := by simpa using h2
        exact absurd h4 (by decide)
      | cons y rest =>
        simp only [chainB, Bool.and_eq_true] at h3
        have h5 := h3.1
        simp only [isEdge, List.contains, List.elem_iff, List.mem_singleton,
          Prod.mk.injEq] at h5
        exact absurd h5.1 (by decide)

end SANDefense
